import Mathlib

/-!
Arduino_NextPM: a shallow embedding of the NextPM sensor driver

Source: `src/Arduino_NextPM/src/Arduino_NextPM.h` and `Arduino_NextPM.cpp`.

Conventions of the embedding.

* `uint8_t` values are natural numbers; every store into a `uint8_t` object
  and every `uint8_t` parameter reduces modulo 256.
* `int` is the 32-bit `int` of the ESP32 (the only board the source names);
  no intermediate value of the driver leaves that range, so `int` arithmetic
  is done in `Nat`/`Int` without wrap-around.  The C remainder `%` is the
  truncating one (`Int.tmod`).
* `float` members are idealised as exact rationals: rounding is not modelled.
* The two arrays are maps from an index to a byte.  `sensorResponse` is
  declared with 16 elements (indices 0..15); a store at a larger index is
  outside the array and stays visible in the map at that index.
* The serial port is a queue of unread bytes, a log of written bytes and a
  schedule of the batches of bytes that arrive during the successive calls of
  `delay`.  A read loop runs without new bytes arriving in between.
-/

namespace NextPMDriver

/-! ## The serial port (`HardwareSerial`, an external collaborator) -/

/-- The byte channel the driver talks to: `rx` holds the bytes received and not
yet read (oldest first), `tx` the bytes written so far (oldest first) and
`arrivals` the batches of bytes the device delivers during the successive
waits of the driver. -/
structure HardwareSerial where
  rx : List Nat
  tx : List Nat
  arrivals : List (List Nat)

namespace HardwareSerial

/-- A port with nothing buffered, nothing written and nothing scheduled. -/
def idle : HardwareSerial := ⟨[], [], []⟩

/-- The call `begin(115200, SERIAL_8N1, rx, tx)`: opens the port. -/
def begin (s : HardwareSerial) : HardwareSerial := s

/-- The call `write(b)` with a `uint8_t` argument. -/
def write (s : HardwareSerial) (b : Nat) : HardwareSerial :=
  { s with tx := s.tx ++ [b % 256] }

/-- The call `available()`: the number of unread bytes. -/
def available (s : HardwareSerial) : Nat := s.rx.length

/-- Time passes (one call of `delay`): the next scheduled batch arrives. -/
def elapse (s : HardwareSerial) : HardwareSerial :=
  match s.arrivals with
  | [] => s
  | c :: cs => { s with rx := s.rx ++ c, arrivals := cs }

/-- The port once a command has been sent and its reply awaited: the three
calls `delay(1)` of `sendStoredCommand` and the wait before the read have
passed.  Its `rx` is what `readResponse` finds. -/
def afterCommand (s : HardwareSerial) : HardwareSerial :=
  s.elapse.elapse.elapse.elapse

end HardwareSerial

/-! ## The structures of `Arduino_NextPM.h` -/

/-- The struct `NextPMState`: one bit of the state byte with its two labels. -/
structure NextPMState where
  stateBitmask : Nat
  stateDescriptorEnabled : String
  stateDescriptorDisabled : String
  stateEnabled : Bool

namespace NextPMState

/-- The method `checkIfPresent`: recomputes the flag from the state byte and
returns it. -/
def checkIfPresent (f : NextPMState) (stateCodeByte : Nat) : Bool × NextPMState :=
  let enabled := decide ((f.stateBitmask &&& (stateCodeByte % 256)) ≠ 0)
  (enabled, { f with stateEnabled := enabled })

/-- The method `isTrue`. -/
def isTrue (f : NextPMState) : Bool := f.stateEnabled

/-- The method `getString`. -/
def getString (f : NextPMState) : String :=
  if f.stateEnabled then f.stateDescriptorEnabled else f.stateDescriptorDisabled

end NextPMState

/-- The struct `MeasurementMode`. -/
structure MeasurementMode where
  modeName : String
  modeCode : Nat
  avgPeriodSeconds : Int
  transmitPeriodSeconds : Int

/-- The struct `Measurement`: `int pcs_per_litre` and `float density`. -/
structure Measurement where
  pcs_per_litre : Int
  density : ℚ

namespace Measurement

/-- The default member initialisers of `Measurement`. -/
def zero : Measurement := ⟨0, 0⟩

/-- The method `calculateValues`: `pcsByte1 << 8 | pcsByte2` and the integer
quotient `(densityByte1 << 8 | densityByte2) / 10`, which is then converted to
`float`. -/
def calculateValues (_m : Measurement) (pcsByte1 pcsByte2 densityByte1 densityByte2 : Nat) :
    Measurement :=
  { pcs_per_litre := ((((pcsByte1 % 256) <<< 8) ||| (pcsByte2 % 256) : Nat) : Int)
    density := ((((((densityByte1 % 256) <<< 8) ||| (densityByte2 % 256)) / 10 : Nat) : Int) : ℚ) }

end Measurement

/-! ## The class `NextPM` -/

/-- The data members of the class `NextPM`.  `SENS_SERIAL` is the port the
pointer of that name refers to; `currentMode` is `none` while the pointer has
not been set. -/
structure NextPM where
  ADDR : Nat
  initialised : Bool
  SENS_SERIAL : HardwareSerial
  stateCode : Nat
  allStateStrings : String
  activeStateStrings : String
  sleepEnabled : NextPMState
  degradedError : NextPMState
  notReady : NextPMState
  highHumidityError : NextPMState
  tempHumidityError : NextPMState
  fanError : NextPMState
  memoryError : NextPMState
  laserError : NextPMState
  currentMode : Option MeasurementMode
  noMeasurementAvailable : Bool
  PM_1 : Measurement
  PM_2_5 : Measurement
  PM_10 : Measurement
  rawTemperatureCelsius : ℚ
  rawRelativeHumidityPercentage : ℚ
  correctedTemperatureCelsius : ℚ
  correctedRelativeHumidityPercentage : ℚ
  firmwareVersion : Nat
  storedCommand : Nat → Nat
  checksumError : Bool
  sensorResponse : Nat → Nat
  responseLength : Nat

/-- The assignment `a[i] = v` for an array of `uint8_t`. -/
def store (a : Nat → Nat) (i v : Nat) : Nat → Nat :=
  fun j => if j = i then v % 256 else a j

namespace NextPM

/-- The member `OFF`. -/
def OFF : MeasurementMode := ⟨"NOT SAMPLING", 0x00, 0, 0⟩
/-- The member `FAST`. -/
def FAST : MeasurementMode := ⟨"SECOND", 0x11, 10, 1⟩
/-- The member `MEDIUM`. -/
def MEDIUM : MeasurementMode := ⟨"TEN SECONDS", 0x12, 60, 10⟩
/-- The member `SLOW`. -/
def SLOW : MeasurementMode := ⟨"SIXTY SECONDS", 0x13, 900, 60⟩

/-- The constructor `NextPM(sensorAddress)` after the default member
initialisers.  `storedCommand` is initialised from the default `ADDR = 0x81`
before the constructor body assigns `ADDR`.  `sensorResponse` has no
initialiser: its content `mem` is whatever the memory holds. -/
def new (sensorAddress : Nat) (mem : Nat → Nat) : NextPM :=
  { ADDR := sensorAddress % 256
    initialised := false
    SENS_SERIAL := HardwareSerial.idle
    stateCode := 0x00
    allStateStrings := ""
    activeStateStrings := ""
    sleepEnabled := ⟨0x01, "SLEEP ENABLED", "SLEEP DISABLED", false⟩
    degradedError := ⟨0x02, "SENSOR DEGRADED", "SENSOR OK", false⟩
    notReady := ⟨0x04, "SENSOR NOT READY", "SENSOR READY", false⟩
    highHumidityError := ⟨0x08, "HUMIDITY EXCEEDS LIMITS", "HUMIDITY OK", false⟩
    tempHumidityError := ⟨0x10, "TEMP/HUMIDITY SENSOR ERROR", "TEMP/HUMIDITY SENSOR OK", false⟩
    fanError := ⟨0x20, "FAN ERROR", "FAN OK", false⟩
    memoryError := ⟨0x40, "INTERNAL MEMORY ERROR", "INTERNAL MEMORY OK", false⟩
    laserError := ⟨0x80, "LASER ERROR", "LASER OK", false⟩
    currentMode := none
    noMeasurementAvailable := true
    PM_1 := Measurement.zero
    PM_2_5 := Measurement.zero
    PM_10 := Measurement.zero
    rawTemperatureCelsius := 0
    rawRelativeHumidityPercentage := 0
    correctedTemperatureCelsius := 0
    correctedRelativeHumidityPercentage := 0
    firmwareVersion := 0x00
    storedCommand := store (store (store (fun _ => 0) 0 0x81) 1 0x00) 2 0x00
    checksumError := false
    sensorResponse := mem
    responseLength := 0 }

/-- The Arduino call `delay(ms)`: the driver blocks and the port receives the
next scheduled batch. -/
def delay (p : NextPM) (_ms : Nat) : NextPM :=
  { p with SENS_SERIAL := p.SENS_SERIAL.elapse }

/-- The method `setCommandChecksum`: the `int` expression
`(0x100 - storedCommand[1] - storedCommand[0]) % 0x100`, stored into a
`uint8_t`. -/
def setCommandChecksum (p : NextPM) : NextPM :=
  let value : Int := Int.tmod (0x100 - (p.storedCommand 1 : Int) - (p.storedCommand 0 : Int)) 0x100
  { p with storedCommand := store p.storedCommand 2 (value % 256).toNat }

/-- One turn of the loop of `sendStoredCommand`: `write(storedCommand[i])`
followed by `delay(1)`. -/
def sendByte (p : NextPM) (i : Nat) : NextPM :=
  delay { p with SENS_SERIAL := p.SENS_SERIAL.write (p.storedCommand i) } 1

/-- The method `sendStoredCommand`. -/
def sendStoredCommand (p : NextPM) : NextPM :=
  let p := { p with storedCommand := store p.storedCommand 0 p.ADDR }
  let p := setCommandChecksum p
  (List.range 3).foldl sendByte p

/-- The `while` loop of `readResponse`, by recursion on the unread bytes: it
returns the buffer, the length and the bytes left unread. -/
def readLoop (buf : Nat → Nat) (len : Nat) : List Nat → (Nat → Nat) × Nat × List Nat
  | [] => (buf, len, [])
  | b :: rest =>
    let buf1 := store buf len b
    let len1 := (len + 1) % 256
    if len1 > 16 then (buf1, len1, rest) else readLoop buf1 len1 rest

/-- The method `readResponse`. -/
def readResponse (p : NextPM) : NextPM :=
  let r := readLoop p.sensorResponse 0 p.SENS_SERIAL.rx
  { p with
    sensorResponse := r.1
    responseLength := r.2.1
    SENS_SERIAL := { p.SENS_SERIAL with rx := r.2.2 } }

/-- The bytes `sensorResponse[0]`, ..., `sensorResponse[responseLength - 1]`:
the response as the driver holds it. -/
def received (p : NextPM) : List Nat :=
  (List.range p.responseLength).map p.sensorResponse

/-- The method `checkResponseChecksum`: it sums the received bytes, stores
`(sum % 0x100) != 0` in `checksumError` and returns `checksumError`. -/
def checkResponseChecksum (p : NextPM) : Bool × NextPM :=
  let calculatedChecksum :=
    (List.range p.responseLength).foldl (fun acc i => acc + p.sensorResponse i) 0
  let p := { p with checksumError := decide (calculatedChecksum % 0x100 ≠ 0) }
  (p.checksumError, p)

/-- One turn of the loop of `updateSensorState` for the flag `f`:
it returns the flag and the two reports `(allStateStrings, activeStateStrings)`. -/
def reportFlag (f : NextPMState) (stateCode : Nat) (all active : String) :
    NextPMState × String × String :=
  let r := f.checkIfPresent stateCode
  let f := r.2
  let active := if r.1 then (active ++ f.getString) ++ "\n" else active
  let all := (all ++ f.getString) ++ "\n"
  (f, all, active)

/-- The method `updateSensorState`; the loop over `allStates[0..7]` is
written out flag by flag, in the order of the array. -/
def updateSensorState (p : NextPM) (state : Nat) : NextPM :=
  let p := { p with allStateStrings := "", activeStateStrings := "" }
  let p := { p with stateCode := state % 256 }
  let p :=
    if p.checksumError then
      { p with
        allStateStrings := p.allStateStrings ++ "CHECKSUM INVALID - CHECK WIRING AND SENSOR\n"
        activeStateStrings := p.activeStateStrings ++ "CHECKSUM INVALID - CHECK WIRING AND SENSOR\n"
        stateCode := 0xFF }
    else p
  let r0 := reportFlag p.sleepEnabled p.stateCode p.allStateStrings p.activeStateStrings
  let r1 := reportFlag p.degradedError p.stateCode r0.2.1 r0.2.2
  let r2 := reportFlag p.notReady p.stateCode r1.2.1 r1.2.2
  let r3 := reportFlag p.highHumidityError p.stateCode r2.2.1 r2.2.2
  let r4 := reportFlag p.tempHumidityError p.stateCode r3.2.1 r3.2.2
  let r5 := reportFlag p.fanError p.stateCode r4.2.1 r4.2.2
  let r6 := reportFlag p.memoryError p.stateCode r5.2.1 r5.2.2
  let r7 := reportFlag p.laserError p.stateCode r6.2.1 r6.2.2
  { p with
    sleepEnabled := r0.1
    degradedError := r1.1
    notReady := r2.1
    highHumidityError := r3.1
    tempHumidityError := r4.1
    fanError := r5.1
    memoryError := r6.1
    laserError := r7.1
    allStateStrings := r7.2.1
    activeStateStrings := r7.2.2 }

/-- The method `getSensorState`: the state query `0x16`, the wait, the read
and the checksum; it returns `sensorResponse[2]`. -/
def getSensorState (p : NextPM) : Nat × NextPM :=
  let p := { p with storedCommand := store p.storedCommand 1 0x16 }
  let p := sendStoredCommand p
  let p := delay p 350
  let p := readResponse p
  let p := (checkResponseChecksum p).2
  (p.sensorResponse 2, p)

/-- The statement `updateSensorState(getSensorState());` that opens every
public operation. -/
def refreshState (p : NextPM) : NextPM :=
  let r := getSensorState p
  updateSensorState r.2 r.1

/-- The method `init`. -/
def init (p : NextPM) (serObj : HardwareSerial) : Bool × NextPM :=
  let p := { p with currentMode := some OFF }
  let p := { p with SENS_SERIAL := serObj }
  let p := { p with SENS_SERIAL := p.SENS_SERIAL.begin }
  let p := delay p 350
  let p := refreshState p
  (!p.checksumError, p)

/-- The lines of a measurement operation from `storedCommand[1] = opcode;` to
`checkResponseChecksum();`: command, wait of 350 ms, read, checksum. -/
def exchange (p : NextPM) (opcode : Nat) : NextPM :=
  let p := { p with storedCommand := store p.storedCommand 1 opcode }
  let p := sendStoredCommand p
  let p := delay p 350
  let p := readResponse p
  (checkResponseChecksum p).2

/-- The method `doSleep`. -/
def doSleep (p : NextPM) : NextPM :=
  let p := refreshState p
  if !p.sleepEnabled.isTrue then
    let p := exchange p 0x15
    if p.checksumError then refreshState p
    else updateSensorState p (p.sensorResponse 2)
  else p

/-- The method `doWake`. -/
def doWake (p : NextPM) : NextPM :=
  let p := refreshState p
  if p.sleepEnabled.isTrue then
    let p := { p with storedCommand := store p.storedCommand 1 0x15 }
    let p := sendStoredCommand p
    let p := delay p 1000
    refreshState p
  else p

/-- The method `updateParticulateData`. -/
def updateParticulateData (p : NextPM) (newSensorMode : MeasurementMode) : NextPM :=
  let p := refreshState p
  if p.notReady.isTrue || p.sleepEnabled.isTrue || p.laserError.isTrue then p
  else
    let p := exchange p newSensorMode.modeCode
    if p.checksumError then p
    else
      let p := updateSensorState p (p.sensorResponse 2)
      if p.sensorResponse 2 = 0x16 then
        let p := { p with noMeasurementAvailable := true }
        refreshState p
      else
        let p := { p with noMeasurementAvailable := false }
        let p := { p with currentMode := some newSensorMode }
        let p := { p with PM_1 := p.PM_1.calculateValues (p.sensorResponse 3)
                            (p.sensorResponse 4) (p.sensorResponse 5) (p.sensorResponse 6) }
        let p := { p with PM_2_5 := p.PM_2_5.calculateValues (p.sensorResponse 7)
                            (p.sensorResponse 8) (p.sensorResponse 9) (p.sensorResponse 10) }
        { p with PM_10 := p.PM_10.calculateValues (p.sensorResponse 11)
                            (p.sensorResponse 12) (p.sensorResponse 13) (p.sensorResponse 14) }

/-- The method `updateTemperatureHumidityData`. -/
def updateTemperatureHumidityData (p : NextPM) : NextPM :=
  let p := refreshState p
  if p.notReady.isTrue || p.tempHumidityError.isTrue then p
  else
    let p := exchange p 0x14
    if p.checksumError then p
    else
      let p := updateSensorState p (p.sensorResponse 2)
      if p.sensorResponse 2 = 0x16 then
        { p with noMeasurementAvailable := true }
      else
        let p := { p with noMeasurementAvailable := false }
        let p := { p with rawTemperatureCelsius :=
          ((((p.sensorResponse 3) <<< 8) ||| (p.sensorResponse 4) : Nat) : ℚ) / 100 }
        let p := { p with rawRelativeHumidityPercentage :=
          ((((p.sensorResponse 5) <<< 8) ||| (p.sensorResponse 6) : Nat) : ℚ) / 100 }
        let p := { p with correctedTemperatureCelsius :=
          (9754 / 10000 : ℚ) * p.rawTemperatureCelsius - (42488 / 10000 : ℚ) }
        { p with correctedRelativeHumidityPercentage :=
          (11768 / 10000 : ℚ) * p.rawRelativeHumidityPercentage - (4727 / 1000 : ℚ) }

/-- The method `readyToMeasure`. -/
def readyToMeasure (p : NextPM) : Bool × NextPM :=
  let p := refreshState p
  (!p.notReady.isTrue, p)

/-- The method `getAllStateStrings`. -/
def getAllStateStrings (p : NextPM) : String × NextPM :=
  let p := refreshState p
  (p.allStateStrings, p)

/-- The method `getActiveStateStrings`. -/
def getActiveStateStrings (p : NextPM) : String × NextPM :=
  let p := refreshState p
  (p.activeStateStrings, p)

/-- The method `previousChecksumError`. -/
def previousChecksumError (p : NextPM) : Bool := p.checksumError

/-- The method `measurementIsValid`. -/
def measurementIsValid (p : NextPM) : Bool := !p.noMeasurementAvailable

/-- The method `getStateCode`. -/
def getStateCode (p : NextPM) : Nat × NextPM :=
  let p := refreshState p
  (p.stateCode, p)

/-- The eight flags carry the bitmasks given to them in the class declaration
(`0x01`, `0x02`, `0x04`, `0x08`, `0x10`, `0x20`, `0x40`, `0x80`); no method
changes a bitmask. -/
def MasksDeclared (p : NextPM) : Prop :=
  p.sleepEnabled.stateBitmask = 0x01 ∧ p.degradedError.stateBitmask = 0x02 ∧
  p.notReady.stateBitmask = 0x04 ∧ p.highHumidityError.stateBitmask = 0x08 ∧
  p.tempHumidityError.stateBitmask = 0x10 ∧ p.fanError.stateBitmask = 0x20 ∧
  p.memoryError.stateBitmask = 0x40 ∧ p.laserError.stateBitmask = 0x80

instance (p : NextPM) : Decidable (MasksDeclared p) := by
  unfold MasksDeclared; infer_instance

/-- The local array `allStates` of `updateSensorState`: the eight flags in the
order sleep, degraded, not-ready, high-humidity, temp/humidity-error,
fan-error, memory-error, laser-error. -/
def allStates (p : NextPM) : List NextPMState :=
  [p.sleepEnabled, p.degradedError, p.notReady, p.highHumidityError,
   p.tempHumidityError, p.fanError, p.memoryError, p.laserError]

/-- A freshly constructed driver at the default address `0x81`, with a zeroed
response buffer. -/
def fresh : NextPM := NextPM.new 0x81 (fun _ => 0)

/-- A reply to the state query: address, opcode `0x16`, state byte `0x00`
(awake, ready, no error) and checksum. -/
def stateReplyReady : List Nat := [0x81, 0x16, 0x00, 0x69]

/-- A 15-byte particulate reply in FAST mode with state byte `0x00` and the
windows `01 2C 00 64`, `00 05 00 32`, `00 07 00 9F`; its bytes sum to 0
modulo 256. -/
def particulateReply : List Nat :=
  [0x81, 0x11, 0x00, 0x01, 0x2C, 0x00, 0x64, 0x00, 0x05, 0x00, 0x32, 0x00, 0x07, 0x00, 0x9F]

/-- A 15-byte particulate reply whose state byte is the busy code `0x16`; its
bytes sum to 0 modulo 256. -/
def particulateReplyBusy : List Nat :=
  [0x81, 0x11, 0x16, 0x00, 0x00, 0x00, 0x00, 0x00, 0x00, 0x00, 0x00, 0x00, 0x00, 0x00, 0x58]

/-- A reply damaged on the wire: the bytes do not sum to 0 modulo 256. -/
def damagedReply : List Nat := [0x81, 0x11, 0x00, 0x01]

/-- A fresh driver on a port whose device answers the state query with
`stateReplyReady` and the following command with `reply`; nothing arrives
during the waits between the bytes of a command. -/
def sessionAnswering (reply : List Nat) : NextPM :=
  { fresh with
    SENS_SERIAL := ⟨[], [], [[], [], [], stateReplyReady, [], [], [], reply, [], [], [],
      stateReplyReady]⟩ }

/-- A fresh driver on a port that holds 17 unread bytes, `1` to `17`. -/
def sessionOverrun : NextPM :=
  { fresh with
    SENS_SERIAL := ⟨[1, 2, 3, 4, 5, 6, 7, 8, 9, 10, 11, 12, 13, 14, 15, 16, 17], [], []⟩ }

/-- The command frame of address `a` and opcode `o`: address, opcode and the
checksum `(0x100 - o - a) mod 0x100`. -/
def command (a o : Nat) : List Nat :=
  [a % 256, o % 256, ((0x100 - ((o % 256 : Nat) : Int) - ((a % 256 : Nat) : Int)) % 0x100).toNat]

/-- The bytes written to the port between the session `p` and the later
session `q`. -/
def sentSince (p q : NextPM) : List Nat :=
  q.SENS_SERIAL.tx.drop p.SENS_SERIAL.tx.length

/-- The opcodes of a sequence of three-byte commands: the second byte of each. -/
def opcodes : List Nat → List Nat
  | _ :: o :: _ :: rest => o :: opcodes rest
  | _ => []

/-- A fresh driver on a port that holds 18 unread bytes, `1` to `18`. -/
def sessionEighteen : NextPM :=
  { fresh with
    SENS_SERIAL := ⟨[1, 2, 3, 4, 5, 6, 7, 8, 9, 10, 11, 12, 13, 14, 15, 16, 17, 18], [], []⟩ }

/-- A fresh driver on a port that holds the four unread bytes of
`stateReplyReady`. -/
def sessionFourUnread : NextPM :=
  { fresh with SENS_SERIAL := ⟨stateReplyReady, [], []⟩ }

/-- The lines of `doWake` from `storedCommand[1] = 0x15;` to `delay(1000);`:
the toggle command is written and the driver waits, without a read. -/
def toggleUnread (p : NextPM) : NextPM :=
  let p := { p with storedCommand := store p.storedCommand 1 0x15 }
  let p := sendStoredCommand p
  delay p 1000

/-- Each of the eight flags is enabled exactly when its bitmask ANDed with the
stored `stateCode` is not zero. -/
def Consistent (p : NextPM) : Prop :=
  (allStates p).map (fun f => f.stateEnabled)
    = (allStates p).map (fun f => decide (f.stateBitmask &&& p.stateCode ≠ 0))

instance (p : NextPM) : Decidable (Consistent p) := by
  unfold Consistent; infer_instance

/-- A reply to the state query with the sleep bit set (state byte `0x01`). -/
def stateReplyAsleep : List Nat := [0x81, 0x16, 0x01, 0x68]

/-- A reply to the toggle command `0x15` with state byte `0x01`. -/
def toggleReplyAsleep : List Nat := [0x81, 0x15, 0x01, 0x69]

/-- A fresh driver on a port whose device is asleep: it answers the state
query with `stateReplyAsleep`, the toggle with `toggleReplyAsleep` and the next
state query with `stateReplyReady`. -/
def sessionWaking : NextPM :=
  { fresh with
    SENS_SERIAL := ⟨[], [], [[], [], [], stateReplyAsleep, [], [], [], toggleReplyAsleep,
      [], [], [], stateReplyReady]⟩ }

/-- A reply to the state query with the not-ready bit set (state byte `0x04`). -/
def stateReplyNotReady : List Nat := [0x81, 0x16, 0x04, 0x65]

/-- A reply to the state query whose bytes do not sum to 0 modulo 256. -/
def stateReplyDamaged : List Nat := [0x81, 0x16, 0x00, 0x00]

/-- A temperature and humidity reply whose state byte is the busy code `0x16`;
its bytes sum to 0 modulo 256. -/
def climateReplyBusy : List Nat := [0x81, 0x14, 0x16, 0x00, 0x00, 0x00, 0x00, 0x55]

/-- A fresh driver on a port whose device answers the commands, in order, with
the given replies; nothing arrives during the waits between the bytes of a
command. -/
def sessionScript (first second third : List Nat) : NextPM :=
  { fresh with
    SENS_SERIAL := ⟨[], [], [[], [], [], first, [], [], [], second, [], [], [], third]⟩ }

/-- A port on which nothing ever arrives. -/
def silentPort : HardwareSerial := ⟨[], [], []⟩

/-- A port whose device answers the state query of `init` with
`stateReplyDamaged`; nothing arrives during the first wait of `init` and the
waits between the bytes of the command. -/
def damagedPort : HardwareSerial := ⟨[], [], [[], [], [], [], stateReplyDamaged]⟩

/-- The flag table of the class declaration, in the order of `allStates`:
bitmask, label when enabled, label when disabled. -/
def flagTable : List (Nat × String × String) :=
  [(0x01, "SLEEP ENABLED", "SLEEP DISABLED"),
   (0x02, "SENSOR DEGRADED", "SENSOR OK"),
   (0x04, "SENSOR NOT READY", "SENSOR READY"),
   (0x08, "HUMIDITY EXCEEDS LIMITS", "HUMIDITY OK"),
   (0x10, "TEMP/HUMIDITY SENSOR ERROR", "TEMP/HUMIDITY SENSOR OK"),
   (0x20, "FAN ERROR", "FAN OK"),
   (0x40, "INTERNAL MEMORY ERROR", "INTERNAL MEMORY OK"),
   (0x80, "LASER ERROR", "LASER OK")]

/-- The eight flags carry the bitmasks and labels given to them in the class
declaration; no method changes them. -/
def FlagsDeclared (p : NextPM) : Prop :=
  (allStates p).map
    (fun f => (f.stateBitmask, f.stateDescriptorEnabled, f.stateDescriptorDisabled))
    = flagTable

instance (p : NextPM) : Decidable (FlagsDeclared p) := by
  unfold FlagsDeclared; infer_instance

/-- The concatenation of the given labels, each followed by a newline. -/
def concatLines : List String → String
  | [] => ""
  | l :: ls => (l ++ "\n") ++ concatLines ls

/-! ## Lemmas and theorems -/

theorem elapse_tx (s : HardwareSerial) : s.elapse.tx = s.tx := by
  unfold HardwareSerial.elapse
  cases s.arrivals <;> rfl

theorem tmod_emod_256 (x : Int) : (Int.tmod x 256) % 256 = x % 256 := by
  rw [Int.tmod_def]
  generalize x.tdiv 256 = k
  omega

theorem sendByte_tx (p : NextPM) (i : Nat) :
    (sendByte p i).SENS_SERIAL.tx = p.SENS_SERIAL.tx ++ [p.storedCommand i % 256] := by
  simp [sendByte, delay, elapse_tx, HardwareSerial.write]

theorem sendByte_storedCommand (p : NextPM) (i : Nat) :
    (sendByte p i).storedCommand = p.storedCommand := rfl

theorem sendStoredCommand_tx (p : NextPM) :
    (sendStoredCommand p).SENS_SERIAL.tx =
      p.SENS_SERIAL.tx ++ [p.ADDR % 256, p.storedCommand 1 % 256,
        ((0x100 - (p.storedCommand 1 : Int) - ((p.ADDR % 256 : Nat) : Int)) % 0x100).toNat
          % 256] := by
  have h3 : List.range 3 = [0, 1, 2] := rfl
  simp only [sendStoredCommand, h3, List.foldl_cons, List.foldl_nil, sendByte_tx,
    sendByte_storedCommand, setCommandChecksum, store]
  simp [tmod_emod_256]

/-- C1: for every address a and opcode o in 0..255, after `storedCommand[1] = o`
the method `sendStoredCommand` appends exactly the three bytes a, o, c to the
bytes written, where c is the non-negative remainder of (0x100 - o - a) modulo
0x100, c is below 256 and (a + o + c) mod 256 = 0. -/
theorem command_frame (p : NextPM) (a o : Nat) (ha : a < 256) (ho : o < 256) :
    (sendStoredCommand
        { p with ADDR := a, storedCommand := store p.storedCommand 1 o }).SENS_SERIAL.tx
      = p.SENS_SERIAL.tx ++ [a, o, ((0x100 - (o : Int) - (a : Int)) % 0x100).toNat] ∧
    ((0x100 - (o : Int) - (a : Int)) % 0x100).toNat < 256 ∧
    (a + o + ((0x100 - (o : Int) - (a : Int)) % 0x100).toNat) % 256 = 0 := by
  refine ⟨?_, by omega, by omega⟩
  rw [sendStoredCommand_tx]
  have h1 : store p.storedCommand 1 o 1 = o := by simp [store, Nat.mod_eq_of_lt ho]
  dsimp only
  simp only [h1, Nat.mod_eq_of_lt ha, Nat.mod_eq_of_lt ho]
  rw [Nat.mod_eq_of_lt (by omega)]

/-- C1 at address 0xFF and opcode 0xFF, where 0x100 - o - a is negative. -/
theorem command_frame_witness :
    ((0xFF : Nat) < 256 ∧ (0xFF : Nat) < 256) ∧
    (sendStoredCommand { fresh with
        ADDR := 0xFF, storedCommand := store fresh.storedCommand 1 0xFF }).SENS_SERIAL.tx
      = fresh.SENS_SERIAL.tx ++
          [0xFF, 0xFF, ((0x100 - ((0xFF : Nat) : Int) - ((0xFF : Nat) : Int)) % 0x100).toNat] ∧
    ((0x100 - ((0xFF : Nat) : Int) - ((0xFF : Nat) : Int)) % 0x100).toNat < 256 ∧
    (0xFF + 0xFF + ((0x100 - ((0xFF : Nat) : Int) - ((0xFF : Nat) : Int)) % 0x100).toNat)
      % 256 = 0 :=
  ⟨by decide, command_frame fresh 0xFF 0xFF (by decide) (by decide)⟩

theorem shl8_or (hi lo : Nat) (h : lo < 256) : (hi <<< 8) ||| lo = 256 * hi + lo := by
  have h2 : lo < 2 ^ 8 := by simpa using h
  rw [Nat.shiftLeft_eq, Nat.mul_comm, ← Nat.mul_add_lt_is_or h2]

theorem foldl_add_eq_sum (f : Nat → Nat) (l : List Nat) (a : Nat) :
    l.foldl (fun acc i => acc + f i) a = a + (l.map f).sum := by
  induction l generalizing a with
  | nil => simp
  | cons x xs ih => simp [ih, Nat.add_assoc]

theorem checksumError_eq (p : NextPM) :
    (checkResponseChecksum p).2.checksumError = decide ((received p).sum % 256 ≠ 0) := by
  simp [checkResponseChecksum, received, foldl_add_eq_sum]

/-- C2: for the received bytes (the first `responseLength` bytes of the
buffer, possibly none), after `checkResponseChecksum` the flag `checksumError`
is false if and only if the bytes sum to 0 modulo 256, and
`previousChecksumError` returns that flag. -/
theorem checksum_flag (p : NextPM) :
    (received p).length = p.responseLength ∧
    ((checkResponseChecksum p).2.checksumError = false ↔ (received p).sum % 256 = 0) ∧
    previousChecksumError (checkResponseChecksum p).2 = (checkResponseChecksum p).2.checksumError := by
  refine ⟨by simp [received], ?_, rfl⟩
  rw [checksumError_eq]
  simp

/-- C3 fails as stated: with no byte received the sum is 0 modulo 256 and
`checkResponseChecksum` returns false. -/
theorem checksum_return_inverted :
    (received fresh).sum % 256 = 0 ∧ (checkResponseChecksum fresh).1 = false := by
  decide

/-- C3 as amended: the boolean returned by `checkResponseChecksum` is the error
flag; it is false exactly when the received bytes sum to 0 modulo 256 and true
exactly when they do not. -/
theorem checksum_return_is_error_flag (p : NextPM) :
    ((checkResponseChecksum p).1 = false ↔ (received p).sum % 256 = 0) ∧
    ((checkResponseChecksum p).1 = true ↔ (received p).sum % 256 ≠ 0) := by
  have h : (checkResponseChecksum p).1 = (checkResponseChecksum p).2.checksumError := rfl
  rw [h, checksumError_eq]
  simp

/-- C4: when `updateSensorState(s)` runs while `checksumError` is true, the
state code becomes 0xFF, all eight flags become enabled, both reports start
with the line CHECKSUM INVALID - CHECK WIRING AND SENSOR, and the resulting
session is the same for every other state byte t. -/
theorem checksum_failure_override (p : NextPM) (s t : Nat) (hm : MasksDeclared p)
    (hc : p.checksumError = true) :
    (updateSensorState p s).stateCode = 0xFF ∧
    (allStates (updateSensorState p s)).map NextPMState.isTrue = List.replicate 8 true ∧
    (∃ rest, (updateSensorState p s).allStateStrings =
      "CHECKSUM INVALID - CHECK WIRING AND SENSOR\n" ++ rest) ∧
    (∃ rest, (updateSensorState p s).activeStateStrings =
      "CHECKSUM INVALID - CHECK WIRING AND SENSOR\n" ++ rest) ∧
    updateSensorState p s = updateSensorState p t := by
  obtain ⟨h0, h1, h2, h3, h4, h5, h6, h7⟩ := hm
  refine ⟨?_, ?_, ?_, ?_, ?_⟩
  · simp [updateSensorState, hc]
  · simp [updateSensorState, hc, allStates, reportFlag, NextPMState.checkIfPresent,
      NextPMState.isTrue, h0, h1, h2, h3, h4, h5, h6, h7]
  · simp only [updateSensorState, hc, reportFlag, if_true, String.append_assoc]
    exact ⟨_, rfl⟩
  · simp [updateSensorState, hc, reportFlag, NextPMState.checkIfPresent,
      h0, h1, h2, h3, h4, h5, h6, h7, String.append_assoc]
  · simp [updateSensorState, hc]


/-- C4 on a fresh driver whose checksum flag is set, decoding the byte 0x00. -/
theorem checksum_failure_override_witness :
    MasksDeclared { fresh with checksumError := true } ∧
    (updateSensorState { fresh with checksumError := true } 0x00).stateCode = 0xFF ∧
    (allStates (updateSensorState { fresh with checksumError := true } 0x00)).map
      NextPMState.isTrue = List.replicate 8 true :=
  ⟨by decide,
   (checksum_failure_override { fresh with checksumError := true } 0x00 0x55 (by decide) rfl).1,
   (checksum_failure_override { fresh with checksumError := true } 0x00 0x55 (by decide) rfl).2.1⟩

/-- C5: when `updateSensorState(s)` runs on a state byte s while
`checksumError` is false, the state code becomes s and the i-th flag of
`allStates` (i = 0..7) is enabled if and only if s AND 2^i is not 0; the outcome
is a function of s alone. -/
theorem state_decode (p : NextPM) (s : Nat) (hs : s < 256) (hm : MasksDeclared p)
    (hc : p.checksumError = false) :
    (updateSensorState p s).stateCode = s ∧
    (allStates (updateSensorState p s)).map NextPMState.isTrue =
      (List.range 8).map (fun i => decide (s &&& 2 ^ i ≠ 0)) := by
  obtain ⟨h0, h1, h2, h3, h4, h5, h6, h7⟩ := hm
  have hr : List.range 8 = [0, 1, 2, 3, 4, 5, 6, 7] := rfl
  refine ⟨?_, ?_⟩
  · simp [updateSensorState, hc, Nat.mod_eq_of_lt hs]
  · simp [updateSensorState, hc, allStates, reportFlag, NextPMState.checkIfPresent,
      NextPMState.isTrue, h0, h1, h2, h3, h4, h5, h6, h7, hr, Nat.mod_eq_of_lt hs,
      Nat.land_comm s]
    rcases Nat.mod_two_eq_zero_or_one s with h | h <;> simp [h]

/-- C5 on a fresh driver, decoding the byte 0x12. -/
theorem state_decode_witness :
    (0x12 < 256 ∧ MasksDeclared fresh ∧ fresh.checksumError = false) ∧
    (updateSensorState fresh 0x12).stateCode = 0x12 ∧
    (allStates (updateSensorState fresh 0x12)).map NextPMState.isTrue =
      (List.range 8).map (fun i => decide (0x12 &&& 2 ^ i ≠ 0)) :=
  ⟨⟨by decide, by decide, rfl⟩, state_decode fresh 0x12 (by decide) (by decide) rfl⟩

/-- C6: for bytes b0, b1, b2, b3, `calculateValues` sets the particle count to
256*b0 + b1 and the density to the integer quotient (256*b2 + b3) div 10; the
window 01 2C 00 64 gives the count 300 and the density 10. -/
theorem measurement_decode (m : Measurement) (b0 b1 b2 b3 : Nat)
    (h0 : b0 < 256) (h1 : b1 < 256) (h2 : b2 < 256) (h3 : b3 < 256) :
    (m.calculateValues b0 b1 b2 b3).pcs_per_litre = ((256 * b0 + b1 : Nat) : Int) ∧
    (m.calculateValues b0 b1 b2 b3).density = ((((256 * b2 + b3) / 10 : Nat) : Int) : ℚ) ∧
    (m.calculateValues 0x01 0x2C 0x00 0x64).pcs_per_litre = 300 ∧
    (m.calculateValues 0x01 0x2C 0x00 0x64).density = 10 := by
  refine ⟨?_, ?_, ?_, ?_⟩
  · simp only [Measurement.calculateValues, Nat.mod_eq_of_lt h0, Nat.mod_eq_of_lt h1,
      shl8_or _ _ h1]
  · simp only [Measurement.calculateValues, Nat.mod_eq_of_lt h2, Nat.mod_eq_of_lt h3,
      shl8_or _ _ h3]
  · simp [Measurement.calculateValues]
  · simp [Measurement.calculateValues]

/-- C6 on the window 01 2C 00 64. -/
theorem measurement_decode_witness :
    ((0x01 < 256 ∧ 0x2C < 256) ∧ (0x00 < 256 ∧ 0x64 < 256)) ∧
    (Measurement.zero.calculateValues 0x01 0x2C 0x00 0x64).pcs_per_litre
      = ((256 * 0x01 + 0x2C : Nat) : Int) ∧
    (Measurement.zero.calculateValues 0x01 0x2C 0x00 0x64).density
      = ((((256 * 0x00 + 0x64) / 10 : Nat) : Int) : ℚ) :=
  ⟨by decide,
   (measurement_decode Measurement.zero 0x01 0x2C 0x00 0x64
      (by decide) (by decide) (by decide) (by decide)).1,
   (measurement_decode Measurement.zero 0x01 0x2C 0x00 0x64
      (by decide) (by decide) (by decide) (by decide)).2.1⟩

theorem elapse_write (s : HardwareSerial) (b : Nat) :
    (s.write b).elapse = s.elapse.write b := by
  unfold HardwareSerial.elapse HardwareSerial.write
  cases h : s.arrivals <;> simp [h]

theorem sendStoredCommand_rx (p : NextPM) :
    (sendStoredCommand p).SENS_SERIAL.rx = p.SENS_SERIAL.elapse.elapse.elapse.rx := by
  have h3 : List.range 3 = [0, 1, 2] := rfl
  simp only [sendStoredCommand, h3, List.foldl_cons, List.foldl_nil, sendByte, delay,
    setCommandChecksum, elapse_write]
  rfl

theorem readLoop_fits (l : List Nat) (buf : Nat → Nat) (len : Nat)
    (h : len + l.length ≤ 16) :
    readLoop buf len l =
      (fun j => if len ≤ j ∧ j < len + l.length then l.getD (j - len) 0 % 256 else buf j,
       len + l.length, []) := by
  induction l generalizing buf len with
  | nil =>
    simp only [readLoop, List.length_nil, Nat.add_zero]
    refine Prod.ext ?_ rfl
    funext j
    have c : ¬ (len ≤ j ∧ j < len) := by omega
    simp [c]
  | cons b rest ih =>
    simp only [List.length_cons] at h
    have h1 : (len + 1) % 256 = len + 1 := Nat.mod_eq_of_lt (by omega)
    have h2 : ¬ (len + 1 > 16) := by omega
    simp only [readLoop, h1, h2, if_false]
    rw [ih _ _ (by omega)]
    refine Prod.ext ?_ (Prod.ext ?_ rfl)
    · funext j
      simp only [store, List.length_cons]
      by_cases hj : j = len
      · subst hj
        simp
      · by_cases hlt : len + 1 ≤ j ∧ j < len + 1 + rest.length
        · have e : j - len = (j - (len + 1)) + 1 := by omega
          have c : len ≤ j ∧ j < len + (rest.length + 1) := by omega
          simp [hlt, c, e, hj]
        · have c : ¬ (len ≤ j ∧ j < len + (rest.length + 1)) := by omega
          simp [hlt, c, hj]
    · simp only [List.length_cons]; omega

theorem updateSensorState_frame (p : NextPM) (s : Nat) :
    (updateSensorState p s).sensorResponse = p.sensorResponse ∧
    (updateSensorState p s).responseLength = p.responseLength ∧
    (updateSensorState p s).checksumError = p.checksumError ∧
    (updateSensorState p s).noMeasurementAvailable = p.noMeasurementAvailable ∧
    (updateSensorState p s).PM_1 = p.PM_1 ∧
    (updateSensorState p s).PM_2_5 = p.PM_2_5 ∧
    (updateSensorState p s).PM_10 = p.PM_10 ∧
    (updateSensorState p s).rawTemperatureCelsius = p.rawTemperatureCelsius ∧
    (updateSensorState p s).rawRelativeHumidityPercentage = p.rawRelativeHumidityPercentage ∧
    (updateSensorState p s).correctedTemperatureCelsius = p.correctedTemperatureCelsius ∧
    (updateSensorState p s).correctedRelativeHumidityPercentage
      = p.correctedRelativeHumidityPercentage ∧
    (updateSensorState p s).SENS_SERIAL = p.SENS_SERIAL := by
  unfold updateSensorState
  cases p.checksumError <;> exact ⟨rfl, rfl, rfl, rfl, rfl, rfl, rfl, rfl, rfl, rfl, rfl, rfl⟩


theorem exchange_frame (p : NextPM) (opcode : Nat) :
    (exchange p opcode).noMeasurementAvailable = p.noMeasurementAvailable ∧
    (exchange p opcode).PM_1 = p.PM_1 ∧
    (exchange p opcode).PM_2_5 = p.PM_2_5 ∧
    (exchange p opcode).PM_10 = p.PM_10 ∧
    (exchange p opcode).rawTemperatureCelsius = p.rawTemperatureCelsius ∧
    (exchange p opcode).rawRelativeHumidityPercentage = p.rawRelativeHumidityPercentage ∧
    (exchange p opcode).correctedTemperatureCelsius = p.correctedTemperatureCelsius ∧
    (exchange p opcode).correctedRelativeHumidityPercentage
      = p.correctedRelativeHumidityPercentage := by
  refine ⟨?_, ?_, ?_, ?_, ?_, ?_, ?_, ?_⟩ <;> rfl

theorem getSensorState_eq_exchange (p : NextPM) :
    getSensorState p = ((exchange p 0x16).sensorResponse 2, exchange p 0x16) := rfl

theorem refreshState_frame (p : NextPM) :
    (refreshState p).noMeasurementAvailable = p.noMeasurementAvailable ∧
    (refreshState p).PM_1 = p.PM_1 ∧
    (refreshState p).PM_2_5 = p.PM_2_5 ∧
    (refreshState p).PM_10 = p.PM_10 ∧
    (refreshState p).rawTemperatureCelsius = p.rawTemperatureCelsius ∧
    (refreshState p).rawRelativeHumidityPercentage = p.rawRelativeHumidityPercentage ∧
    (refreshState p).correctedTemperatureCelsius = p.correctedTemperatureCelsius ∧
    (refreshState p).correctedRelativeHumidityPercentage
      = p.correctedRelativeHumidityPercentage := by
  obtain ⟨-, -, -, a, b, c, d, e, f, g, h, -⟩ :=
    updateSensorState_frame (getSensorState p).2 (getSensorState p).1
  obtain ⟨a1, b1, c1, d1, e1, f1, g1, h1⟩ := exchange_frame p 0x16
  unfold refreshState
  rw [getSensorState_eq_exchange] at a b c d e f g h ⊢
  exact ⟨a.trans a1, b.trans b1, c.trans c1, d.trans d1, e.trans e1, f.trans f1,
    g.trans g1, h.trans h1⟩

theorem exchange_checksumError (p : NextPM) (opcode : Nat) :
    (exchange p opcode).checksumError
      = decide ((received (exchange p opcode)).sum % 256 ≠ 0) := by
  have h : exchange p opcode = (checkResponseChecksum (readResponse (delay (sendStoredCommand
      { p with storedCommand := store p.storedCommand 1 opcode }) 350))).2 := rfl
  have h2 : ∀ q : NextPM, received (checkResponseChecksum q).2 = received q := fun _ => rfl
  rw [h, h2, checksumError_eq]

theorem exchange_read (p : NextPM) (opcode : Nat) :
    (exchange p opcode).sensorResponse
        = (readLoop p.sensorResponse 0 p.SENS_SERIAL.afterCommand.rx).1 ∧
    (exchange p opcode).responseLength
        = (readLoop p.sensorResponse 0 p.SENS_SERIAL.afterCommand.rx).2.1 := by
  have h : (sendStoredCommand { p with storedCommand := store p.storedCommand 1 opcode
      }).SENS_SERIAL.elapse.rx = p.SENS_SERIAL.afterCommand.rx := by
    have h3 : List.range 3 = [0, 1, 2] := rfl
    simp only [sendStoredCommand, h3, List.foldl_cons, List.foldl_nil, sendByte, delay,
      setCommandChecksum, elapse_write, HardwareSerial.afterCommand]
    rfl
  have e1 : (exchange p opcode).sensorResponse = (readLoop p.sensorResponse 0
      (sendStoredCommand { p with storedCommand := store p.storedCommand 1 opcode
        }).SENS_SERIAL.elapse.rx).1 := rfl
  have e2 : (exchange p opcode).responseLength = (readLoop p.sensorResponse 0
      (sendStoredCommand { p with storedCommand := store p.storedCommand 1 opcode
        }).SENS_SERIAL.elapse.rx).2.1 := rfl
  rw [e1, e2, h]
  exact ⟨rfl, rfl⟩

theorem land_mod_256 (m s : Nat) (hm : m &&& 255 = m) : m &&& (s % 256) = m &&& s := by
  have h : s % 256 = s &&& 255 := (Nat.and_pow_two_sub_one_eq_mod s 8).symm
  rw [h, Nat.land_comm s 255, ← Nat.land_assoc, hm]

theorem sum_map_mod_256 (l : List Nat) : (l.map (· % 256)).sum % 256 = l.sum % 256 := by
  induction l with
  | nil => rfl
  | cons x xs ih =>
    simp only [List.map_cons, List.sum_cons]
    omega

theorem exchange_fits (p : NextPM) (opcode : Nat) (F : List Nat)
    (hF : p.SENS_SERIAL.afterCommand.rx = F) (hlen : F.length ≤ 16) :
    (∀ j, (exchange p opcode).sensorResponse j
        = if j < F.length then F.getD j 0 % 256 else p.sensorResponse j) ∧
    (exchange p opcode).responseLength = F.length ∧
    received (exchange p opcode) = F.map (· % 256) := by
  obtain ⟨e1, e2⟩ := exchange_read p opcode
  rw [hF, readLoop_fits F _ 0 (by omega)] at e1 e2
  have a : ∀ j, (exchange p opcode).sensorResponse j
      = if j < F.length then F.getD j 0 % 256 else p.sensorResponse j := by
    intro j
    rw [e1]
    simp
  have b : (exchange p opcode).responseLength = F.length := by
    rw [e2]; simp
  refine ⟨a, b, ?_⟩
  unfold received
  rw [b]
  apply List.ext_getElem
  · simp
  · intro i h1 h2
    simp only [List.length_map, List.length_range] at h1
    simp [a, h1, List.getD_eq_getElem _ _ h1]

theorem updateSensorState_masks (p : NextPM) (s : Nat) (hm : MasksDeclared p) :
    MasksDeclared (updateSensorState p s) := by
  unfold updateSensorState
  cases p.checksumError <;> exact hm

theorem updateSensorState_valid (p : NextPM) (s : Nat) (hm : MasksDeclared p)
    (hc : p.checksumError = false) :
    (updateSensorState p s).stateCode = s % 256 ∧
    (allStates (updateSensorState p s)).map NextPMState.isTrue =
      [decide (0x01 &&& s ≠ 0), decide (0x02 &&& s ≠ 0), decide (0x04 &&& s ≠ 0),
       decide (0x08 &&& s ≠ 0), decide (0x10 &&& s ≠ 0), decide (0x20 &&& s ≠ 0),
       decide (0x40 &&& s ≠ 0), decide (0x80 &&& s ≠ 0)] := by
  obtain ⟨h0, h1, h2, h3, h4, h5, h6, h7⟩ := hm
  refine ⟨?_, ?_⟩
  · simp [updateSensorState, hc]
  · simp only [updateSensorState, hc, allStates, reportFlag, NextPMState.checkIfPresent,
      NextPMState.isTrue, List.map_cons, List.map_nil, Bool.false_eq_true, if_false]
    simp only [h0, h1, h2, h3, h4, h5, h6, h7, Nat.mod_mod, land_mod_256 _ s (by decide : 0x01 &&& 255 = 0x01),
      land_mod_256 _ s (by decide : 0x02 &&& 255 = 0x02),
      land_mod_256 _ s (by decide : 0x04 &&& 255 = 0x04),
      land_mod_256 _ s (by decide : 0x08 &&& 255 = 0x08),
      land_mod_256 _ s (by decide : 0x10 &&& 255 = 0x10),
      land_mod_256 _ s (by decide : 0x20 &&& 255 = 0x20),
      land_mod_256 _ s (by decide : 0x40 &&& 255 = 0x40),
      land_mod_256 _ s (by decide : 0x80 &&& 255 = 0x80)]

theorem exchange_masks (p : NextPM) (opcode : Nat) (hm : MasksDeclared p) :
    MasksDeclared (exchange p opcode) := hm

theorem calculateValues_mod (m n : Measurement) (a b c d : Nat) :
    m.calculateValues (a % 256) (b % 256) (c % 256) (d % 256) = n.calculateValues a b c d := by
  simp [Measurement.calculateValues]

/-- The three flags that gate a particulate read, after a state refresh whose
response passed the checksum. -/
theorem refreshState_gate (p : NextPM) (hm : MasksDeclared p)
    (hok : (getSensorState p).2.checksumError = false) :
    (refreshState p).sleepEnabled.isTrue = decide (0x01 &&& (getSensorState p).1 ≠ 0) ∧
    (refreshState p).notReady.isTrue = decide (0x04 &&& (getSensorState p).1 ≠ 0) ∧
    (refreshState p).tempHumidityError.isTrue = decide (0x10 &&& (getSensorState p).1 ≠ 0) ∧
    (refreshState p).laserError.isTrue = decide (0x80 &&& (getSensorState p).1 ≠ 0) := by
  have hm2 : MasksDeclared (getSensorState p).2 := by
    rw [getSensorState_eq_exchange]; exact exchange_masks p 0x16 hm
  have h := (updateSensorState_valid (getSensorState p).2 (getSensorState p).1 hm2 hok).2
  simp only [allStates, List.map_cons, List.map_nil, List.cons.injEq, and_true] at h
  obtain ⟨a0, -, a2, -, a4, -, -, a7⟩ := h
  exact ⟨a0, a2, a4, a7⟩

/-- C7: let the response to the state query pass the checksum with the sleep,
not-ready and laser-error bits of its state byte clear, and let the 15 bytes F,
which sum to 0 modulo 256 and whose byte 2 is not 0x16, be what the port holds
when the reply to the mode command is read.  Then after
`updateParticulateData` the three measurements are `calculateValues` of
F[3..6], F[7..10] and F[11..14], and `measurementIsValid` returns true. -/
theorem particulate_end_to_end (p : NextPM) (mode : MeasurementMode) (F : List Nat)
    (hlen : F.length = 15) (hbytes : ∀ b ∈ F, b < 256) (hsum : F.sum % 256 = 0)
    (hbusy : F.getD 2 0 ≠ 0x16)
    (hm : MasksDeclared p)
    (hok : (getSensorState p).2.checksumError = false)
    (hsleep : (getSensorState p).1 &&& 0x01 = 0)
    (hready : (getSensorState p).1 &&& 0x04 = 0)
    (hlaser : (getSensorState p).1 &&& 0x80 = 0)
    (hF : (refreshState p).SENS_SERIAL.afterCommand.rx = F) :
    (updateParticulateData p mode).PM_1
      = p.PM_1.calculateValues (F.getD 3 0) (F.getD 4 0) (F.getD 5 0) (F.getD 6 0) ∧
    (updateParticulateData p mode).PM_2_5
      = p.PM_2_5.calculateValues (F.getD 7 0) (F.getD 8 0) (F.getD 9 0) (F.getD 10 0) ∧
    (updateParticulateData p mode).PM_10
      = p.PM_10.calculateValues (F.getD 11 0) (F.getD 12 0) (F.getD 13 0) (F.getD 14 0) ∧
    measurementIsValid (updateParticulateData p mode) = true := by
  obtain ⟨g0, g2, -, g7⟩ := refreshState_gate p hm hok
  rw [Nat.land_comm] at hsleep hready hlaser
  have gate : ((refreshState p).notReady.isTrue || (refreshState p).sleepEnabled.isTrue
      || (refreshState p).laserError.isTrue) = false := by
    rw [g0, g2, g7, hsleep, hready, hlaser]; rfl
  obtain ⟨ebuf, -, erecv⟩ :=
    exchange_fits (refreshState p) mode.modeCode F hF (by omega)
  have echk : (exchange (refreshState p) mode.modeCode).checksumError = false := by
    rw [exchange_checksumError, erecv, sum_map_mod_256, hsum]; rfl
  have e2 : (exchange (refreshState p) mode.modeCode).sensorResponse 2 ≠ 0x16 := by
    have hb : F.getD 2 0 < 256 := by
      apply hbytes
      rw [List.getD_eq_getElem _ _ (by omega)]
      exact List.getElem_mem _
    rw [ebuf 2, if_pos (by omega), Nat.mod_eq_of_lt hb]
    exact hbusy
  have gate2 : ¬ ((refreshState p).notReady.isTrue || (refreshState p).sleepEnabled.isTrue
      || (refreshState p).laserError.isTrue) = true := by rw [gate]; decide
  have echk2 : ¬ (exchange (refreshState p) mode.modeCode).checksumError = true := by
    rw [echk]; decide
  have ubuf := (updateSensorState_frame (exchange (refreshState p) mode.modeCode)
    ((exchange (refreshState p) mode.modeCode).sensorResponse 2)).1
  have e3 : ¬ (updateSensorState (exchange (refreshState p) mode.modeCode)
    ((exchange (refreshState p) mode.modeCode).sensorResponse 2)).sensorResponse 2 = 0x16 := by
    rw [ubuf]; exact e2
  unfold updateParticulateData
  dsimp only
  rw [if_neg gate2, if_neg echk2, if_neg e3]
  dsimp only [measurementIsValid]
  rw [ubuf]
  simp only [ebuf, hlen, Nat.reduceLT, if_true]
  exact ⟨calculateValues_mod _ _ _ _ _ _, calculateValues_mod _ _ _ _ _ _,
    calculateValues_mod _ _ _ _ _ _, rfl⟩

/-- C7 on a fresh driver in FAST mode, answered by `stateReplyReady` and then
`particulateReply`. -/
theorem particulate_end_to_end_witness :
    (particulateReply.length = 15 ∧ (∀ b ∈ particulateReply, b < 256) ∧
      particulateReply.sum % 256 = 0 ∧ particulateReply.getD 2 0 ≠ 0x16 ∧
      MasksDeclared (sessionAnswering particulateReply) ∧
      (getSensorState (sessionAnswering particulateReply)).2.checksumError = false ∧
      (getSensorState (sessionAnswering particulateReply)).1 &&& 0x01 = 0 ∧
      (getSensorState (sessionAnswering particulateReply)).1 &&& 0x04 = 0 ∧
      (getSensorState (sessionAnswering particulateReply)).1 &&& 0x80 = 0 ∧
      (refreshState (sessionAnswering particulateReply)).SENS_SERIAL.afterCommand.rx
        = particulateReply) ∧
    (updateParticulateData (sessionAnswering particulateReply) FAST).PM_1
      = Measurement.zero.calculateValues 0x01 0x2C 0x00 0x64 ∧
    measurementIsValid (updateParticulateData (sessionAnswering particulateReply) FAST) = true :=
  ⟨by decide,
   (particulate_end_to_end (sessionAnswering particulateReply) FAST particulateReply
      (by decide) (by decide) (by decide) (by decide) (by decide) (by decide) (by decide)
      (by decide) (by decide) (by decide)).1,
   (particulate_end_to_end (sessionAnswering particulateReply) FAST particulateReply
      (by decide) (by decide) (by decide) (by decide) (by decide) (by decide) (by decide)
      (by decide) (by decide) (by decide)).2.2.2⟩

/-- C8: if the state refresh does not abort the operation and the particulate
response passes the checksum with `sensorResponse[2]` equal to 0x16, then
`updateParticulateData` sets `noMeasurementAvailable` (so `measurementIsValid`
returns false) and leaves `PM_1`, `PM_2_5` and `PM_10` as they were. -/
theorem particulate_busy (p : NextPM) (mode : MeasurementMode)
    (hgate : ((refreshState p).notReady.isTrue || (refreshState p).sleepEnabled.isTrue
      || (refreshState p).laserError.isTrue) = false)
    (hsum : (received (exchange (refreshState p) mode.modeCode)).sum % 256 = 0)
    (hbusy : (exchange (refreshState p) mode.modeCode).sensorResponse 2 = 0x16) :
    (updateParticulateData p mode).noMeasurementAvailable = true ∧
    measurementIsValid (updateParticulateData p mode) = false ∧
    (updateParticulateData p mode).PM_1 = p.PM_1 ∧
    (updateParticulateData p mode).PM_2_5 = p.PM_2_5 ∧
    (updateParticulateData p mode).PM_10 = p.PM_10 := by
  have gate2 : ¬ ((refreshState p).notReady.isTrue || (refreshState p).sleepEnabled.isTrue
      || (refreshState p).laserError.isTrue) = true := by rw [hgate]; decide
  have echk2 : ¬ (exchange (refreshState p) mode.modeCode).checksumError = true := by
    rw [exchange_checksumError, hsum]; decide
  obtain ⟨ubuf, -, -, u0, u1, u2, u3, -⟩ :=
    updateSensorState_frame (exchange (refreshState p) mode.modeCode)
      ((exchange (refreshState p) mode.modeCode).sensorResponse 2)
  have e3 : (updateSensorState (exchange (refreshState p) mode.modeCode)
    ((exchange (refreshState p) mode.modeCode).sensorResponse 2)).sensorResponse 2 = 0x16 := by
    rw [ubuf]; exact hbusy
  obtain ⟨-, x1, x2, x3, -⟩ := exchange_frame (refreshState p) mode.modeCode
  obtain ⟨-, r1, r2, r3, -⟩ := refreshState_frame p
  unfold updateParticulateData
  dsimp only
  rw [if_neg gate2, if_neg echk2, if_pos e3]
  generalize hq : ({ (updateSensorState (exchange (refreshState p) mode.modeCode)
    ((exchange (refreshState p) mode.modeCode).sensorResponse 2)) with
      noMeasurementAvailable := true } : NextPM) = q
  have q0 : q.noMeasurementAvailable = true := by rw [← hq]
  have q1 : q.PM_1 = p.PM_1 := by
    rw [← hq]; dsimp only; rw [u1, x1, r1]
  have q2 : q.PM_2_5 = p.PM_2_5 := by
    rw [← hq]; dsimp only; rw [u2, x2, r2]
  have q3 : q.PM_10 = p.PM_10 := by
    rw [← hq]; dsimp only; rw [u3, x3, r3]
  obtain ⟨f0, f1, f2, f3, -⟩ := refreshState_frame q
  refine ⟨f0.trans q0, ?_, f1.trans q1, f2.trans q2, f3.trans q3⟩
  unfold measurementIsValid
  rw [f0.trans q0]
  rfl

/-- C8 on a fresh driver in FAST mode, answered by `stateReplyReady` and then
`particulateReplyBusy`. -/
theorem particulate_busy_witness :
    (((refreshState (sessionAnswering particulateReplyBusy)).notReady.isTrue
        || (refreshState (sessionAnswering particulateReplyBusy)).sleepEnabled.isTrue
        || (refreshState (sessionAnswering particulateReplyBusy)).laserError.isTrue) = false ∧
      (received (exchange (refreshState (sessionAnswering particulateReplyBusy))
        FAST.modeCode)).sum % 256 = 0 ∧
      (exchange (refreshState (sessionAnswering particulateReplyBusy))
        FAST.modeCode).sensorResponse 2 = 0x16) ∧
    (updateParticulateData (sessionAnswering particulateReplyBusy) FAST).noMeasurementAvailable
      = true ∧
    (updateParticulateData (sessionAnswering particulateReplyBusy) FAST).PM_1
      = (sessionAnswering particulateReplyBusy).PM_1 :=
  ⟨by decide,
   (particulate_busy (sessionAnswering particulateReplyBusy) FAST
      (by decide) (by decide) (by decide)).1,
   (particulate_busy (sessionAnswering particulateReplyBusy) FAST
      (by decide) (by decide) (by decide)).2.2.1⟩

/-- C9: if the response to the measurement command fails the checksum, then
`updateParticulateData` leaves the three measurements and
`noMeasurementAvailable` unchanged, and `updateTemperatureHumidityData` leaves
the raw and corrected temperature and humidity and `noMeasurementAvailable`
unchanged. -/
theorem stale_on_checksum_failure (p : NextPM) (mode : MeasurementMode) :
    ((received (exchange (refreshState p) mode.modeCode)).sum % 256 ≠ 0 →
      (updateParticulateData p mode).PM_1 = p.PM_1 ∧
      (updateParticulateData p mode).PM_2_5 = p.PM_2_5 ∧
      (updateParticulateData p mode).PM_10 = p.PM_10 ∧
      (updateParticulateData p mode).noMeasurementAvailable = p.noMeasurementAvailable) ∧
    ((received (exchange (refreshState p) 0x14)).sum % 256 ≠ 0 →
      (updateTemperatureHumidityData p).rawTemperatureCelsius = p.rawTemperatureCelsius ∧
      (updateTemperatureHumidityData p).rawRelativeHumidityPercentage
        = p.rawRelativeHumidityPercentage ∧
      (updateTemperatureHumidityData p).correctedTemperatureCelsius
        = p.correctedTemperatureCelsius ∧
      (updateTemperatureHumidityData p).correctedRelativeHumidityPercentage
        = p.correctedRelativeHumidityPercentage ∧
      (updateTemperatureHumidityData p).noMeasurementAvailable = p.noMeasurementAvailable) := by
  obtain ⟨r0, r1, r2, r3, r4, r5, r6, r7⟩ := refreshState_frame p
  constructor
  · intro hfail
    have echk : (exchange (refreshState p) mode.modeCode).checksumError = true := by
      rw [exchange_checksumError]; exact decide_eq_true hfail
    obtain ⟨x0, x1, x2, x3, -⟩ := exchange_frame (refreshState p) mode.modeCode
    unfold updateParticulateData
    dsimp only
    split
    · exact ⟨r1, r2, r3, r0⟩
    · exact ⟨x1.trans r1, x2.trans r2, x3.trans r3, x0.trans r0⟩
  · intro hfail
    have echk : (exchange (refreshState p) 0x14).checksumError = true := by
      rw [exchange_checksumError]; exact decide_eq_true hfail
    obtain ⟨x0, -, -, -, x4, x5, x6, x7⟩ := exchange_frame (refreshState p) 0x14
    unfold updateTemperatureHumidityData
    dsimp only
    split
    · exact ⟨r4, r5, r6, r7, r0⟩
    · exact ⟨x4.trans r4, x5.trans r5, x6.trans r6, x7.trans r7, x0.trans r0⟩

/-- C9 on a fresh driver answered by `stateReplyReady` and then
`damagedReply`. -/
theorem stale_on_checksum_failure_witness :
    ((received (exchange (refreshState (sessionAnswering damagedReply)) FAST.modeCode)).sum
        % 256 ≠ 0 ∧
      (received (exchange (refreshState (sessionAnswering damagedReply)) 0x14)).sum
        % 256 ≠ 0) ∧
    ((updateParticulateData (sessionAnswering damagedReply) FAST).PM_1
        = (sessionAnswering damagedReply).PM_1 ∧
      (updateParticulateData (sessionAnswering damagedReply) FAST).PM_2_5
        = (sessionAnswering damagedReply).PM_2_5 ∧
      (updateParticulateData (sessionAnswering damagedReply) FAST).PM_10
        = (sessionAnswering damagedReply).PM_10 ∧
      (updateParticulateData (sessionAnswering damagedReply) FAST).noMeasurementAvailable
        = (sessionAnswering damagedReply).noMeasurementAvailable) ∧
    (updateTemperatureHumidityData (sessionAnswering damagedReply)).correctedTemperatureCelsius
      = (sessionAnswering damagedReply).correctedTemperatureCelsius :=
  ⟨by decide,
   (stale_on_checksum_failure (sessionAnswering damagedReply) FAST).1 (by decide),
   ((stale_on_checksum_failure (sessionAnswering damagedReply) FAST).2 (by decide)).2.2.1⟩

/-- C10 at 17 unread bytes: `readResponse` records the length 17 and stores the
17th byte at index 16, one past the 16-element array. -/
theorem readResponse_overrun :
    sessionOverrun.SENS_SERIAL.available = 17 ∧
    sessionOverrun.sensorResponse 16 = 0 ∧
    (readResponse sessionOverrun).responseLength = 17 ∧
    (readResponse sessionOverrun).sensorResponse 16 = 17 := by
  decide

theorem exchange_tx (p : NextPM) (opcode : Nat) :
    (exchange p opcode).SENS_SERIAL.tx = p.SENS_SERIAL.tx ++ command p.ADDR opcode := by
  have h : (exchange p opcode).SENS_SERIAL.tx = (sendStoredCommand
      { p with storedCommand := store p.storedCommand 1 opcode }).SENS_SERIAL.elapse.tx := rfl
  rw [h, elapse_tx, sendStoredCommand_tx]
  simp [store, command]
  omega

theorem updateSensorState_ADDR (p : NextPM) (s : Nat) :
    (updateSensorState p s).ADDR = p.ADDR ∧
    (updateSensorState p s).currentMode = p.currentMode := by
  unfold updateSensorState
  cases p.checksumError <;> exact ⟨rfl, rfl⟩

theorem refreshState_tx (p : NextPM) :
    (refreshState p).SENS_SERIAL.tx = p.SENS_SERIAL.tx ++ command p.ADDR 0x16 ∧
    (refreshState p).ADDR = p.ADDR ∧
    (refreshState p).currentMode = p.currentMode := by
  unfold refreshState
  rw [getSensorState_eq_exchange]
  dsimp only
  rw [(updateSensorState_frame _ _).2.2.2.2.2.2.2.2.2.2.2, (updateSensorState_ADDR _ _).1,
    (updateSensorState_ADDR _ _).2, exchange_tx]
  exact ⟨rfl, rfl, rfl⟩

theorem opcodes_command (a o : Nat) (l : List Nat) :
    opcodes (command a o ++ l) = (o % 256) :: opcodes l := rfl

theorem sentSince_append (p q : NextPM) (l : List Nat)
    (h : q.SENS_SERIAL.tx = p.SENS_SERIAL.tx ++ l) : sentSince p q = l := by
  unfold sentSince
  rw [h, List.drop_left]

theorem readLoop_left (l : List Nat) (buf : Nat → Nat) (len : Nat) (h : len ≤ 16) :
    len ≤ (readLoop buf len l).2.1 ∧
    (readLoop buf len l).2.2 = l.drop ((readLoop buf len l).2.1 - len) := by
  induction l generalizing buf len with
  | nil => simp [readLoop]
  | cons b rest ih =>
    have h1 : (len + 1) % 256 = len + 1 := Nat.mod_eq_of_lt (by omega)
    by_cases hc : len + 1 > 16
    · simp only [readLoop, h1, hc, if_true]
      refine ⟨by omega, ?_⟩
      have e : len + 1 - len = 1 := by omega
      rw [e]; rfl
    · simp only [readLoop, h1, hc, if_false]
      obtain ⟨a, b2⟩ := ih (store buf len b) (len + 1) (by omega)
      refine ⟨by omega, ?_⟩
      rw [b2]
      have e : (readLoop (store buf len b) (len + 1) rest).2.1 - len
          = ((readLoop (store buf len b) (len + 1) rest).2.1 - (len + 1)) + 1 := by omega
      rw [e]; rfl

theorem readResponse_fits (p : NextPM) (h : p.SENS_SERIAL.rx.length ≤ 16) :
    (readResponse p).SENS_SERIAL.rx = [] ∧
    (readResponse p).responseLength = p.SENS_SERIAL.rx.length ∧
    received (readResponse p) = p.SENS_SERIAL.rx.map (· % 256) := by
  have e := readLoop_fits p.SENS_SERIAL.rx p.sensorResponse 0 (by omega)
  have e1 : (readResponse p).SENS_SERIAL.rx
      = (readLoop p.sensorResponse 0 p.SENS_SERIAL.rx).2.2 := rfl
  have e2 : (readResponse p).responseLength
      = (readLoop p.sensorResponse 0 p.SENS_SERIAL.rx).2.1 := rfl
  have e3 : (readResponse p).sensorResponse
      = (readLoop p.sensorResponse 0 p.SENS_SERIAL.rx).1 := rfl
  rw [e] at e1 e2 e3
  have b : (readResponse p).responseLength = p.SENS_SERIAL.rx.length := by
    rw [e2]; simp
  refine ⟨e1, b, ?_⟩
  unfold received
  rw [b, e3]
  apply List.ext_getElem
  · simp
  · intro i h1 h2
    simp only [List.length_map, List.length_range] at h1
    simp [h1, List.getD_eq_getElem _ _ h1]

theorem map_mod_of_bytes (l : List Nat) (h : ∀ b ∈ l, b < 256) : l.map (· % 256) = l := by
  induction l with
  | nil => rfl
  | cons x xs ih =>
    simp only [List.map_cons]
    rw [Nat.mod_eq_of_lt (h x (List.mem_cons_self _ _)),
      ih (fun b hb => h b (List.mem_cons_of_mem _ hb))]

/-- C11 fails as stated: with 18 bytes available, `readResponse` leaves the
18th byte in the port. -/
theorem readResponse_leaves_bytes :
    sessionEighteen.SENS_SERIAL.available = 18 ∧
    (readResponse sessionEighteen).SENS_SERIAL.rx = [18] := by
  decide

/-- C11 as amended: when at most 16 bytes are available, `readResponse` leaves
the port empty and stores exactly those bytes in arrival order; in every case
the bytes it does not read stay in the port, in order, for the next read. -/
theorem readResponse_drain (p : NextPM) :
    (p.SENS_SERIAL.rx.length ≤ 16 → (∀ b ∈ p.SENS_SERIAL.rx, b < 256) →
      (readResponse p).SENS_SERIAL.rx = [] ∧
      (readResponse p).responseLength = p.SENS_SERIAL.rx.length ∧
      received (readResponse p) = p.SENS_SERIAL.rx) ∧
    (readResponse p).SENS_SERIAL.rx
      = p.SENS_SERIAL.rx.drop (readResponse p).responseLength := by
  constructor
  · intro hlen hbytes
    obtain ⟨a, b, c⟩ := readResponse_fits p hlen
    exact ⟨a, b, c.trans (map_mod_of_bytes _ hbytes)⟩
  · exact (readLoop_left p.SENS_SERIAL.rx p.sensorResponse 0 (by omega)).2

/-- C11 as amended, on a port holding the four bytes of `stateReplyReady`. -/
theorem readResponse_drain_witness :
    (sessionFourUnread.SENS_SERIAL.rx.length ≤ 16 ∧
      (∀ b ∈ sessionFourUnread.SENS_SERIAL.rx, b < 256)) ∧
    (readResponse sessionFourUnread).SENS_SERIAL.rx = [] ∧
    (readResponse sessionFourUnread).responseLength = sessionFourUnread.SENS_SERIAL.rx.length ∧
    received (readResponse sessionFourUnread) = sessionFourUnread.SENS_SERIAL.rx :=
  ⟨by decide, (readResponse_drain sessionFourUnread).1 (by decide) (by decide)⟩

theorem exchange_ADDR (p : NextPM) (opcode : Nat) :
    (exchange p opcode).ADDR = p.ADDR ∧ (exchange p opcode).currentMode = p.currentMode :=
  ⟨rfl, rfl⟩

theorem updateSensorState_tx (p : NextPM) (s : Nat) :
    (updateSensorState p s).SENS_SERIAL.tx = p.SENS_SERIAL.tx := by
  rw [(updateSensorState_frame p s).2.2.2.2.2.2.2.2.2.2.2]

/-! ### The branches of the public operations -/

theorem doSleep_asleep (p : NextPM) (h : (refreshState p).sleepEnabled.isTrue = true) :
    doSleep p = refreshState p := by
  have c : ¬ (!(refreshState p).sleepEnabled.isTrue) = true := by rw [h]; decide
  unfold doSleep
  dsimp only
  rw [if_neg c]

theorem doSleep_awake_valid (p : NextPM) (h : (refreshState p).sleepEnabled.isTrue = false)
    (hc : (exchange (refreshState p) 0x15).checksumError = false) :
    doSleep p = updateSensorState (exchange (refreshState p) 0x15)
      ((exchange (refreshState p) 0x15).sensorResponse 2) := by
  have c : (!(refreshState p).sleepEnabled.isTrue) = true := by rw [h]; decide
  have c2 : ¬ (exchange (refreshState p) 0x15).checksumError = true := by rw [hc]; decide
  unfold doSleep
  dsimp only
  rw [if_pos c, if_neg c2]

theorem doSleep_awake_invalid (p : NextPM) (h : (refreshState p).sleepEnabled.isTrue = false)
    (hc : (exchange (refreshState p) 0x15).checksumError = true) :
    doSleep p = refreshState (exchange (refreshState p) 0x15) := by
  have c : (!(refreshState p).sleepEnabled.isTrue) = true := by rw [h]; decide
  unfold doSleep
  dsimp only
  rw [if_pos c, if_pos hc]

theorem doWake_awake (p : NextPM) (h : (refreshState p).sleepEnabled.isTrue = false) :
    doWake p = refreshState p := by
  have c : ¬ (refreshState p).sleepEnabled.isTrue = true := by rw [h]; decide
  unfold doWake
  dsimp only
  rw [if_neg c]

theorem doWake_asleep (p : NextPM) (h : (refreshState p).sleepEnabled.isTrue = true) :
    doWake p = refreshState (toggleUnread (refreshState p)) := by
  unfold doWake
  dsimp only
  rw [if_pos h]
  rfl

theorem updateParticulateData_gated (p : NextPM) (mode : MeasurementMode)
    (h : ((refreshState p).notReady.isTrue || (refreshState p).sleepEnabled.isTrue
      || (refreshState p).laserError.isTrue) = true) :
    updateParticulateData p mode = refreshState p := by
  unfold updateParticulateData
  dsimp only
  rw [if_pos h]

theorem updateParticulateData_invalid (p : NextPM) (mode : MeasurementMode)
    (h : ((refreshState p).notReady.isTrue || (refreshState p).sleepEnabled.isTrue
      || (refreshState p).laserError.isTrue) = false)
    (hc : (exchange (refreshState p) mode.modeCode).checksumError = true) :
    updateParticulateData p mode = exchange (refreshState p) mode.modeCode := by
  have c : ¬ ((refreshState p).notReady.isTrue || (refreshState p).sleepEnabled.isTrue
      || (refreshState p).laserError.isTrue) = true := by rw [h]; decide
  unfold updateParticulateData
  dsimp only
  rw [if_neg c, if_pos hc]

theorem updateParticulateData_busy (p : NextPM) (mode : MeasurementMode)
    (h : ((refreshState p).notReady.isTrue || (refreshState p).sleepEnabled.isTrue
      || (refreshState p).laserError.isTrue) = false)
    (hc : (exchange (refreshState p) mode.modeCode).checksumError = false)
    (hb : (exchange (refreshState p) mode.modeCode).sensorResponse 2 = 0x16) :
    updateParticulateData p mode =
      refreshState { updateSensorState (exchange (refreshState p) mode.modeCode)
        ((exchange (refreshState p) mode.modeCode).sensorResponse 2) with
        noMeasurementAvailable := true } := by
  have c : ¬ ((refreshState p).notReady.isTrue || (refreshState p).sleepEnabled.isTrue
      || (refreshState p).laserError.isTrue) = true := by rw [h]; decide
  have c2 : ¬ (exchange (refreshState p) mode.modeCode).checksumError = true := by
    rw [hc]; decide
  have c3 : (updateSensorState (exchange (refreshState p) mode.modeCode)
      ((exchange (refreshState p) mode.modeCode).sensorResponse 2)).sensorResponse 2 = 0x16 := by
    rw [(updateSensorState_frame _ _).1]; exact hb
  unfold updateParticulateData
  dsimp only
  rw [if_neg c, if_neg c2, if_pos c3]

theorem updateTemperatureHumidityData_gated (p : NextPM)
    (h : ((refreshState p).notReady.isTrue || (refreshState p).tempHumidityError.isTrue)
      = true) :
    updateTemperatureHumidityData p = refreshState p := by
  unfold updateTemperatureHumidityData
  dsimp only
  rw [if_pos h]

theorem updateTemperatureHumidityData_busy (p : NextPM)
    (h : ((refreshState p).notReady.isTrue || (refreshState p).tempHumidityError.isTrue)
      = false)
    (hc : (exchange (refreshState p) 0x14).checksumError = false)
    (hb : (exchange (refreshState p) 0x14).sensorResponse 2 = 0x16) :
    updateTemperatureHumidityData p =
      { updateSensorState (exchange (refreshState p) 0x14)
        ((exchange (refreshState p) 0x14).sensorResponse 2) with
        noMeasurementAvailable := true } := by
  have c : ¬ ((refreshState p).notReady.isTrue || (refreshState p).tempHumidityError.isTrue)
      = true := by rw [h]; decide
  have c2 : ¬ (exchange (refreshState p) 0x14).checksumError = true := by
    rw [hc]; decide
  have c3 : (updateSensorState (exchange (refreshState p) 0x14)
      ((exchange (refreshState p) 0x14).sensorResponse 2)).sensorResponse 2 = 0x16 := by
    rw [(updateSensorState_frame _ _).1]; exact hb
  unfold updateTemperatureHumidityData
  dsimp only
  rw [if_neg c, if_neg c2, if_pos c3]

theorem refreshState_masks (p : NextPM) (hm : MasksDeclared p) :
    MasksDeclared (refreshState p) := by
  unfold refreshState
  rw [getSensorState_eq_exchange]
  exact updateSensorState_masks _ _ (exchange_masks p 0x16 hm)

theorem doSleep_masks (p : NextPM) (hm : MasksDeclared p) : MasksDeclared (doSleep p) := by
  have hr := refreshState_masks p hm
  cases h : (refreshState p).sleepEnabled.isTrue
  · cases hc : (exchange (refreshState p) 0x15).checksumError
    · rw [doSleep_awake_valid p h hc]
      exact updateSensorState_masks _ _ (exchange_masks _ _ hr)
    · rw [doSleep_awake_invalid p h hc]
      exact refreshState_masks _ (exchange_masks _ _ hr)
  · rw [doSleep_asleep p h]
    exact hr

/-- What `doSleep` writes when the refreshed sleep flag is clear: the state
query, the toggle and, after a toggle reply with a bad checksum, a second
state query. -/
theorem doSleep_awake_sent (p : NextPM) (h : (refreshState p).sleepEnabled.isTrue = false) :
    ∃ more, (more = [] ∨ more = command p.ADDR 0x16) ∧
      (doSleep p).SENS_SERIAL.tx
        = p.SENS_SERIAL.tx ++ (command p.ADDR 0x16 ++ (command p.ADDR 0x15 ++ more)) ∧
      (doSleep p).ADDR = p.ADDR := by
  obtain ⟨rtx, raddr, -⟩ := refreshState_tx p
  have etx := exchange_tx (refreshState p) 0x15
  rw [rtx, raddr] at etx
  cases hc : (exchange (refreshState p) 0x15).checksumError
  · refine ⟨[], Or.inl rfl, ?_, ?_⟩
    · rw [doSleep_awake_valid p h hc, updateSensorState_tx, etx, List.append_nil,
        List.append_assoc]
    · rw [doSleep_awake_valid p h hc, (updateSensorState_ADDR _ _).1, (exchange_ADDR _ _).1,
        raddr]
  · obtain ⟨r2tx, r2addr, -⟩ := refreshState_tx (exchange (refreshState p) 0x15)
    refine ⟨command p.ADDR 0x16, Or.inr rfl, ?_, ?_⟩
    · rw [doSleep_awake_invalid p h hc, r2tx, etx, (exchange_ADDR _ _).1, raddr,
        List.append_assoc, List.append_assoc]
    · rw [doSleep_awake_invalid p h hc, r2addr, (exchange_ADDR _ _).1, raddr]

/-- C12: let the first state reply pass the checksum with the sleep bit clear,
and let the state reply of the second call pass the checksum with the sleep bit
set.  Then two calls of `doSleep` in succession write the toggle command
(opcode 0x15) exactly once in total: the first call writes the state query and
then the toggle, the second call writes the state query only. -/
theorem sleep_idempotence (p : NextPM) (hm : MasksDeclared p)
    (h1ok : (getSensorState p).2.checksumError = false)
    (h1 : (getSensorState p).1 &&& 0x01 = 0)
    (h2ok : (getSensorState (doSleep p)).2.checksumError = false)
    (h2 : (getSensorState (doSleep p)).1 &&& 0x01 ≠ 0) :
    (opcodes (sentSince p (doSleep (doSleep p)))).count 0x15 = 1 ∧
    (∃ more, sentSince p (doSleep p) = command p.ADDR 0x16 ++ (command p.ADDR 0x15 ++ more)) ∧
    sentSince (doSleep p) (doSleep (doSleep p)) = command p.ADDR 0x16 := by
  rw [Nat.land_comm] at h1 h2
  have s1 : (refreshState p).sleepEnabled.isTrue = false := by
    rw [(refreshState_gate p hm h1ok).1, h1]; rfl
  have s2 : (refreshState (doSleep p)).sleepEnabled.isTrue = true := by
    rw [(refreshState_gate (doSleep p) (doSleep_masks p hm) h2ok).1]
    exact decide_eq_true h2
  obtain ⟨more, hmore, tx1, addr1⟩ := doSleep_awake_sent p s1
  have tx2 : (doSleep (doSleep p)).SENS_SERIAL.tx
      = (doSleep p).SENS_SERIAL.tx ++ command p.ADDR 0x16 := by
    rw [doSleep_asleep (doSleep p) s2, (refreshState_tx (doSleep p)).1, addr1]
  have both : (doSleep (doSleep p)).SENS_SERIAL.tx = p.SENS_SERIAL.tx ++
      (command p.ADDR 0x16 ++ (command p.ADDR 0x15 ++ (more ++ command p.ADDR 0x16))) := by
    rw [tx2, tx1]; simp only [List.append_assoc]
  refine ⟨?_, ⟨more, sentSince_append _ _ _ tx1⟩, sentSince_append _ _ _ tx2⟩
  rw [sentSince_append _ _ _ both]
  rcases hmore with rfl | rfl
  · simp [opcodes_command, opcodes]
  · simp [opcodes_command, opcodes]

/-- The success branch of `updateParticulateData` changes only the
measurements, the mode and `noMeasurementAvailable` after the last decode. -/
theorem updateParticulateData_success (p : NextPM) (mode : MeasurementMode)
    (h : ((refreshState p).notReady.isTrue || (refreshState p).sleepEnabled.isTrue
      || (refreshState p).laserError.isTrue) = false)
    (hc : (exchange (refreshState p) mode.modeCode).checksumError = false)
    (hb : (exchange (refreshState p) mode.modeCode).sensorResponse 2 ≠ 0x16) :
    (updateParticulateData p mode).SENS_SERIAL
      = (updateSensorState (exchange (refreshState p) mode.modeCode)
          ((exchange (refreshState p) mode.modeCode).sensorResponse 2)).SENS_SERIAL ∧
    (updateParticulateData p mode).stateCode
      = (updateSensorState (exchange (refreshState p) mode.modeCode)
          ((exchange (refreshState p) mode.modeCode).sensorResponse 2)).stateCode ∧
    allStates (updateParticulateData p mode)
      = allStates (updateSensorState (exchange (refreshState p) mode.modeCode)
          ((exchange (refreshState p) mode.modeCode).sensorResponse 2)) ∧
    (updateParticulateData p mode).currentMode = some mode := by
  have c : ¬ ((refreshState p).notReady.isTrue || (refreshState p).sleepEnabled.isTrue
      || (refreshState p).laserError.isTrue) = true := by rw [h]; decide
  have c2 : ¬ (exchange (refreshState p) mode.modeCode).checksumError = true := by
    rw [hc]; decide
  have c3 : ¬ (updateSensorState (exchange (refreshState p) mode.modeCode)
      ((exchange (refreshState p) mode.modeCode).sensorResponse 2)).sensorResponse 2 = 0x16 := by
    rw [(updateSensorState_frame _ _).1]; exact hb
  unfold updateParticulateData
  dsimp only
  rw [if_neg c, if_neg c2, if_neg c3]
  dsimp only [allStates]
  exact ⟨rfl, rfl, rfl, rfl⟩

/-- C13: if after the state refresh of `updateParticulateData` one of the
flags not-ready, sleep, laser-error is set, the operation writes the state
query only and leaves the three measurements, `noMeasurementAvailable` and the
current mode unchanged; if none is set, the command of the mode opcode is
written right after the state query. -/
theorem particulate_gating (p : NextPM) (mode : MeasurementMode) :
    (((refreshState p).notReady.isTrue || (refreshState p).sleepEnabled.isTrue
        || (refreshState p).laserError.isTrue) = true →
      sentSince p (updateParticulateData p mode) = command p.ADDR 0x16 ∧
      (updateParticulateData p mode).PM_1 = p.PM_1 ∧
      (updateParticulateData p mode).PM_2_5 = p.PM_2_5 ∧
      (updateParticulateData p mode).PM_10 = p.PM_10 ∧
      (updateParticulateData p mode).noMeasurementAvailable = p.noMeasurementAvailable ∧
      (updateParticulateData p mode).currentMode = p.currentMode) ∧
    (((refreshState p).notReady.isTrue || (refreshState p).sleepEnabled.isTrue
        || (refreshState p).laserError.isTrue) = false →
      ∃ more, sentSince p (updateParticulateData p mode)
        = command p.ADDR 0x16 ++ (command p.ADDR mode.modeCode ++ more)) := by
  obtain ⟨rtx, raddr, rmode⟩ := refreshState_tx p
  obtain ⟨r0, r1, r2, r3, -⟩ := refreshState_frame p
  constructor
  · intro h
    rw [updateParticulateData_gated p mode h]
    exact ⟨sentSince_append _ _ _ rtx, r1, r2, r3, r0, rmode⟩
  · intro h
    have etx := exchange_tx (refreshState p) mode.modeCode
    rw [rtx, raddr, List.append_assoc] at etx
    cases hc : (exchange (refreshState p) mode.modeCode).checksumError
    · by_cases hb : (exchange (refreshState p) mode.modeCode).sensorResponse 2 = 0x16
      · refine ⟨command p.ADDR 0x16, sentSince_append _ _ _ ?_⟩
        rw [updateParticulateData_busy p mode h hc hb]
        have t := (refreshState_tx { updateSensorState (exchange (refreshState p) mode.modeCode)
          ((exchange (refreshState p) mode.modeCode).sensorResponse 2) with
          noMeasurementAvailable := true }).1
        rw [t]
        dsimp only
        rw [updateSensorState_tx, (updateSensorState_ADDR _ _).1, (exchange_ADDR _ _).1, raddr,
          etx]
        simp only [List.append_assoc]
      · refine ⟨[], sentSince_append _ _ _ ?_⟩
        rw [(updateParticulateData_success p mode h hc hb).1, updateSensorState_tx, etx,
          List.append_nil]
    · refine ⟨[], sentSince_append _ _ _ ?_⟩
      rw [updateParticulateData_invalid p mode h hc, etx, List.append_nil]

theorem updateSensorState_consistent (p : NextPM) (s : Nat) :
    Consistent (updateSensorState p s) ∧
    (updateSensorState p s).stateCode = (if p.checksumError then 0xFF else s % 256) := by
  unfold Consistent
  cases h : p.checksumError
  · simp [updateSensorState, h, allStates, reportFlag, NextPMState.checkIfPresent]
  · simp [updateSensorState, h, allStates, reportFlag, NextPMState.checkIfPresent]

theorem afterCommand_rx (s : HardwareSerial) :
    s.afterCommand.rx = s.rx ++ (s.arrivals.take 4).flatten := by
  obtain ⟨rx, tx, arr⟩ := s
  rcases arr with _ | ⟨a1, _ | ⟨a2, _ | ⟨a3, _ | ⟨a4, rest⟩⟩⟩⟩ <;>
    simp [HardwareSerial.afterCommand, HardwareSerial.elapse]

theorem toggleUnread_port (p : NextPM) :
    (toggleUnread p).SENS_SERIAL.tx = p.SENS_SERIAL.tx ++ command p.ADDR 0x15 ∧
    (toggleUnread p).SENS_SERIAL.rx = p.SENS_SERIAL.afterCommand.rx ∧
    (toggleUnread p).ADDR = p.ADDR ∧
    (toggleUnread p).sensorResponse = p.sensorResponse := by
  have h3 : List.range 3 = [0, 1, 2] := rfl
  refine ⟨?_, ?_, rfl, rfl⟩
  · have h : (toggleUnread p).SENS_SERIAL.tx = (sendStoredCommand
        { p with storedCommand := store p.storedCommand 1 0x15 }).SENS_SERIAL.elapse.tx := rfl
    rw [h, elapse_tx, sendStoredCommand_tx]
    simp [store, command]
    omega
  · have h : (toggleUnread p).SENS_SERIAL.rx = (sendStoredCommand
        { p with storedCommand := store p.storedCommand 1 0x15 }).SENS_SERIAL.elapse.rx := rfl
    rw [h]
    simp only [sendStoredCommand, h3, List.foldl_cons, List.foldl_nil, sendByte, delay,
      setCommandChecksum, elapse_write, HardwareSerial.afterCommand]
    rfl

/-- C14 at the failing input: the device answers the first state query with
`stateReplyAsleep`, the toggle with `toggleReplyAsleep` and the following state
query with `stateReplyReady` (state byte 0x00).  The reply to the toggle is
still unread when the second state query is written, the read after that query
stores both replies, their checksum passes, and the final state code 0x01 and
sleep flag come from byte 2 of the reply to the toggle, not from the reply to
the state query. -/
theorem wake_decodes_toggle_reply :
    (refreshState sessionWaking).sleepEnabled.isTrue = true ∧
    (toggleUnread (refreshState sessionWaking)).SENS_SERIAL.rx = toggleReplyAsleep ∧
    (toggleUnread (refreshState sessionWaking)).SENS_SERIAL.arrivals
      = [[], [], [], stateReplyReady] ∧
    received (doWake sessionWaking) = toggleReplyAsleep ++ stateReplyReady ∧
    (doWake sessionWaking).checksumError = false ∧
    (doWake sessionWaking).stateCode = 0x01 ∧
    (doWake sessionWaking).sleepEnabled.isTrue = true ∧
    stateReplyReady.getD 2 0 = 0x00 := by
  decide

/-- What `doWake` writes and reads.  It writes the toggle command exactly when
the sleep flag is set after its state refresh.  When the flag is clear, only
the state query is written.  When it is set, the state query, the toggle and a
second state query are written; no read is made after the toggle, so the bytes
that arrive after it stay queued behind the unread ones; the read after the
second state query takes the queued bytes followed by those that arrive after
that query; and the final state code and flags are decoded from byte 2 of what
that read stored (0xFF and all flags when its checksum fails). -/
theorem wake_decodes_queue (p : NextPM) :
    ((refreshState p).sleepEnabled.isTrue = false →
      sentSince p (doWake p) = command p.ADDR 0x16) ∧
    ((refreshState p).sleepEnabled.isTrue = true →
      sentSince p (doWake p)
        = command p.ADDR 0x16 ++ (command p.ADDR 0x15 ++ command p.ADDR 0x16) ∧
      (toggleUnread (refreshState p)).SENS_SERIAL.rx
        = (refreshState p).SENS_SERIAL.rx
            ++ ((refreshState p).SENS_SERIAL.arrivals.take 4).flatten ∧
      (doWake p).sensorResponse
        = (readLoop (refreshState p).sensorResponse 0
            ((toggleUnread (refreshState p)).SENS_SERIAL.rx
              ++ ((toggleUnread (refreshState p)).SENS_SERIAL.arrivals.take 4).flatten)).1 ∧
      (doWake p).responseLength
        = (readLoop (refreshState p).sensorResponse 0
            ((toggleUnread (refreshState p)).SENS_SERIAL.rx
              ++ ((toggleUnread (refreshState p)).SENS_SERIAL.arrivals.take 4).flatten)).2.1 ∧
      (doWake p).stateCode
        = (if (doWake p).checksumError then 0xFF else (doWake p).sensorResponse 2 % 256) ∧
      Consistent (doWake p)) := by
  obtain ⟨rtx, raddr, -⟩ := refreshState_tx p
  constructor
  · intro h
    rw [doWake_awake p h]
    exact sentSince_append _ _ _ rtx
  · intro h
    obtain ⟨ttx, trx, taddr, tbuf⟩ := toggleUnread_port (refreshState p)
    obtain ⟨ftx, -, -⟩ := refreshState_tx (toggleUnread (refreshState p))
    obtain ⟨ebuf, elen⟩ := exchange_read (toggleUnread (refreshState p)) 0x16
    obtain ⟨ubuf, ulen, uchk, -⟩ :=
      updateSensorState_frame (exchange (toggleUnread (refreshState p)) 0x16)
        ((exchange (toggleUnread (refreshState p)) 0x16).sensorResponse 2)
    obtain ⟨ucons, ucode⟩ :=
      updateSensorState_consistent (exchange (toggleUnread (refreshState p)) 0x16)
        ((exchange (toggleUnread (refreshState p)) 0x16).sensorResponse 2)
    have e : doWake p = updateSensorState (exchange (toggleUnread (refreshState p)) 0x16)
        ((exchange (toggleUnread (refreshState p)) 0x16).sensorResponse 2) := by
      rw [doWake_asleep p h]; rfl
    rw [afterCommand_rx, tbuf] at ebuf elen
    refine ⟨sentSince_append _ _ _ ?_, ?_, ?_, ?_, ?_, ?_⟩
    · rw [doWake_asleep p h, ftx, ttx, taddr, raddr, rtx]
      simp only [List.append_assoc]
    · rw [trx, afterCommand_rx]
    · rw [e, ubuf, ebuf]
    · rw [e, ulen, elen]
    · rw [e, ucode, uchk, ubuf]
    · rw [e]; exact ucons

theorem updateSensorState_override (p : NextPM) (s : Nat) (hm : MasksDeclared p)
    (hc : p.checksumError = true) :
    (allStates (updateSensorState p s)).map NextPMState.isTrue = List.replicate 8 true := by
  obtain ⟨h0, h1, h2, h3, h4, h5, h6, h7⟩ := hm
  simp [updateSensorState, hc, allStates, reportFlag, NextPMState.checkIfPresent,
    NextPMState.isTrue, h0, h1, h2, h3, h4, h5, h6, h7]

/-- After a state refresh whose response failed the checksum, the flags that
gate the operations are all set. -/
theorem refreshState_override (p : NextPM) (hm : MasksDeclared p)
    (hc : (getSensorState p).2.checksumError = true) :
    (refreshState p).sleepEnabled.isTrue = true ∧
    (refreshState p).notReady.isTrue = true ∧
    (refreshState p).tempHumidityError.isTrue = true ∧
    (refreshState p).laserError.isTrue = true := by
  have hm2 : MasksDeclared (getSensorState p).2 := by
    rw [getSensorState_eq_exchange]; exact exchange_masks p 0x16 hm
  have h := updateSensorState_override (getSensorState p).2 (getSensorState p).1 hm2 hc
  simp only [allStates, List.map_cons, List.map_nil, List.replicate, List.cons.injEq,
    and_true] at h
  obtain ⟨a0, -, a2, -, a4, -, -, a7⟩ := h
  exact ⟨a0, a2, a4, a7⟩

theorem getSensorState_checksumError (p : NextPM) :
    (getSensorState p).2.checksumError
      = decide ((received (getSensorState p).2).sum % 256 ≠ 0) := by
  rw [getSensorState_eq_exchange]
  exact exchange_checksumError p 0x16

/-- C19: if the response to the initial state query fails the checksum, then
`doWake` writes the toggle command after the state query (and then a second
state query), whatever state byte was received, while `doSleep`,
`updateParticulateData` and `updateTemperatureHumidityData` write nothing after
the state query. -/
theorem refresh_checksum_failure (p : NextPM) (mode : MeasurementMode)
    (hm : MasksDeclared p)
    (hfail : (received (getSensorState p).2).sum % 256 ≠ 0) :
    sentSince p (doWake p)
      = command p.ADDR 0x16 ++ (command p.ADDR 0x15 ++ command p.ADDR 0x16) ∧
    sentSince p (doSleep p) = command p.ADDR 0x16 ∧
    sentSince p (updateParticulateData p mode) = command p.ADDR 0x16 ∧
    sentSince p (updateTemperatureHumidityData p) = command p.ADDR 0x16 := by
  have hc : (getSensorState p).2.checksumError = true := by
    rw [getSensorState_checksumError]; exact decide_eq_true hfail
  obtain ⟨fs, fn, ft, -⟩ := refreshState_override p hm hc
  obtain ⟨rtx, raddr, -⟩ := refreshState_tx p
  obtain ⟨ttx, -, taddr, -⟩ := toggleUnread_port (refreshState p)
  obtain ⟨ftx, -, -⟩ := refreshState_tx (toggleUnread (refreshState p))
  have gp : ((refreshState p).notReady.isTrue || (refreshState p).sleepEnabled.isTrue
      || (refreshState p).laserError.isTrue) = true := by rw [fn]; rfl
  have gt : ((refreshState p).notReady.isTrue || (refreshState p).tempHumidityError.isTrue)
      = true := by rw [fn]; rfl
  refine ⟨sentSince_append _ _ _ ?_, sentSince_append _ _ _ ?_, sentSince_append _ _ _ ?_,
    sentSince_append _ _ _ ?_⟩
  · rw [doWake_asleep p fs, ftx, ttx, taddr, raddr, rtx]
    simp only [List.append_assoc]
  · rw [doSleep_asleep p fs, rtx]
  · rw [updateParticulateData_gated p mode gp, rtx]
  · rw [updateTemperatureHumidityData_gated p gt, rtx]

/-- C18: `init` writes the state query to the port it is given and returns true
exactly when the bytes it received in reply sum to 0 modulo 256.  When the
port holds at most 16 bytes at the read, the bytes received are the bytes the
port holds, so `init` returns true exactly when the bytes the port delivered
sum to 0 modulo 256; when no byte is there to read, the checksum counts as
valid, `checksumError` is false and `init` returns true. -/
theorem init_checksum (p : NextPM) (serObj : HardwareSerial) :
    ((init p serObj).1 = true ↔ (received (init p serObj).2).sum % 256 = 0) ∧
    (init p serObj).2.SENS_SERIAL.tx = serObj.tx ++ command p.ADDR 0x16 ∧
    (serObj.begin.elapse.afterCommand.rx.length ≤ 16 →
      received (init p serObj).2 = serObj.begin.elapse.afterCommand.rx.map (· % 256) ∧
      ((init p serObj).2.checksumError = false ↔
        serObj.begin.elapse.afterCommand.rx.sum % 256 = 0) ∧
      ((init p serObj).1 = true ↔ serObj.begin.elapse.afterCommand.rx.sum % 256 = 0)) ∧
    (serObj.begin.elapse.afterCommand.rx = [] →
      received (init p serObj).2 = [] ∧
      (init p serObj).2.checksumError = false ∧
      (init p serObj).1 = true) := by
  generalize hx : delay { p with currentMode := some OFF, SENS_SERIAL := serObj.begin } 350 = x
  have hrx : x.SENS_SERIAL.afterCommand.rx = serObj.begin.elapse.afterCommand.rx := by
    rw [← hx]; rfl
  have htx : x.SENS_SERIAL.tx = serObj.tx := by
    rw [← hx]; exact elapse_tx serObj.begin
  have haddr : x.ADDR = p.ADDR := by rw [← hx]; rfl
  have e1 : (init p serObj).2 = refreshState x := by rw [← hx]; rfl
  have e2 : (init p serObj).1 = !(refreshState x).checksumError := by rw [← hx]; rfl
  have e3 : refreshState x = updateSensorState (exchange x 0x16)
      ((exchange x 0x16).sensorResponse 2) := rfl
  obtain ⟨ubuf, ulen, uchk, -⟩ :=
    updateSensorState_frame (exchange x 0x16) ((exchange x 0x16).sensorResponse 2)
  have rcv : received (refreshState x) = received (exchange x 0x16) := by
    unfold received
    rw [e3, ubuf, ulen]
  have chk : (refreshState x).checksumError
      = decide ((received (refreshState x)).sum % 256 ≠ 0) := by
    rw [rcv, e3, uchk, exchange_checksumError]
  refine ⟨?_, ?_, ?_, ?_⟩
  · rw [e1, e2, chk]
    simp
  · rw [e1, (refreshState_tx x).1, htx, haddr]
  · intro hlen
    have hr : received (refreshState x)
        = serObj.begin.elapse.afterCommand.rx.map (· % 256) := by
      rw [rcv]
      exact (exchange_fits x 0x16 _ hrx hlen).2.2
    rw [e1, e2, chk, hr, sum_map_mod_256]
    simp
  · intro hempty
    have hr : received (refreshState x) = [] := by
      rw [rcv, (exchange_fits x 0x16 [] (hrx.trans hempty) (by simp)).2.2]
      rfl
    rw [e1, e2, chk, hr]
    exact ⟨rfl, rfl, rfl⟩

/-- C17: when the measurement response passes the checksum with state byte
0x16, `updateTemperatureHumidityData` sets `noMeasurementAvailable`, leaves the
raw and corrected temperature and humidity unchanged, writes exactly two
commands (state query, opcode 0x14) and ends with the state code 0x16 and the
flags of its bits (degraded, not-ready, temp/humidity-error);
`updateParticulateData` writes three commands (state query, mode opcode, state
query) and ends with the state code and flags decoded from what the read after
the last state query stored, which is the bytes that arrived after that query
whenever the read of the measurement response left the port empty. -/
theorem busy_asymmetry (p : NextPM) (mode : MeasurementMode) (hm : MasksDeclared p) :
    (((refreshState p).notReady.isTrue || (refreshState p).tempHumidityError.isTrue) = false →
      (received (exchange (refreshState p) 0x14)).sum % 256 = 0 →
      (exchange (refreshState p) 0x14).sensorResponse 2 = 0x16 →
      (updateTemperatureHumidityData p).noMeasurementAvailable = true ∧
      (updateTemperatureHumidityData p).rawTemperatureCelsius = p.rawTemperatureCelsius ∧
      (updateTemperatureHumidityData p).rawRelativeHumidityPercentage
        = p.rawRelativeHumidityPercentage ∧
      (updateTemperatureHumidityData p).correctedTemperatureCelsius
        = p.correctedTemperatureCelsius ∧
      (updateTemperatureHumidityData p).correctedRelativeHumidityPercentage
        = p.correctedRelativeHumidityPercentage ∧
      sentSince p (updateTemperatureHumidityData p)
        = command p.ADDR 0x16 ++ command p.ADDR 0x14 ∧
      (updateTemperatureHumidityData p).stateCode = 0x16 ∧
      (allStates (updateTemperatureHumidityData p)).map NextPMState.isTrue
        = [false, true, true, false, true, false, false, false]) ∧
    (((refreshState p).notReady.isTrue || (refreshState p).sleepEnabled.isTrue
        || (refreshState p).laserError.isTrue) = false →
      (received (exchange (refreshState p) mode.modeCode)).sum % 256 = 0 →
      (exchange (refreshState p) mode.modeCode).sensorResponse 2 = 0x16 →
      sentSince p (updateParticulateData p mode)
        = command p.ADDR 0x16 ++ (command p.ADDR mode.modeCode ++ command p.ADDR 0x16) ∧
      (updateParticulateData p mode).sensorResponse
        = (readLoop (exchange (refreshState p) mode.modeCode).sensorResponse 0
            (exchange (refreshState p) mode.modeCode).SENS_SERIAL.afterCommand.rx).1 ∧
      (updateParticulateData p mode).responseLength
        = (readLoop (exchange (refreshState p) mode.modeCode).sensorResponse 0
            (exchange (refreshState p) mode.modeCode).SENS_SERIAL.afterCommand.rx).2.1 ∧
      (updateParticulateData p mode).stateCode
        = (if (updateParticulateData p mode).checksumError then 0xFF
           else (updateParticulateData p mode).sensorResponse 2 % 256) ∧
      Consistent (updateParticulateData p mode) ∧
      ((exchange (refreshState p) mode.modeCode).SENS_SERIAL.rx = [] →
        (exchange (refreshState p) mode.modeCode).SENS_SERIAL.afterCommand.rx
          = ((exchange (refreshState p) mode.modeCode).SENS_SERIAL.arrivals.take
              4).flatten)) := by
  obtain ⟨rtx, raddr, -⟩ := refreshState_tx p
  obtain ⟨-, -, -, -, r4, r5, r6, r7⟩ := refreshState_frame p
  have hmr := refreshState_masks p hm
  constructor
  · intro hg hsum hb
    have hc : (exchange (refreshState p) 0x14).checksumError = false := by
      rw [exchange_checksumError, hsum]; rfl
    obtain ⟨-, -, -, -, x4, x5, x6, x7⟩ := exchange_frame (refreshState p) 0x14
    obtain ⟨-, -, -, -, -, -, -, u4, u5, u6, u7, -⟩ :=
      updateSensorState_frame (exchange (refreshState p) 0x14)
        ((exchange (refreshState p) 0x14).sensorResponse 2)
    obtain ⟨vcode, vflags⟩ := updateSensorState_valid (exchange (refreshState p) 0x14)
      ((exchange (refreshState p) 0x14).sensorResponse 2) (exchange_masks _ _ hmr) hc
    have etx := exchange_tx (refreshState p) 0x14
    rw [rtx, raddr, List.append_assoc] at etx
    dsimp only [allStates] at vflags
    generalize hq : ({ updateSensorState (exchange (refreshState p) 0x14)
      ((exchange (refreshState p) 0x14).sensorResponse 2) with
      noMeasurementAvailable := true } : NextPM) = q
    have q0 : q.noMeasurementAvailable = true := by rw [← hq]
    have q4 : q.rawTemperatureCelsius = p.rawTemperatureCelsius := by
      rw [← hq]; dsimp only; rw [u4, x4, r4]
    have q5 : q.rawRelativeHumidityPercentage = p.rawRelativeHumidityPercentage := by
      rw [← hq]; dsimp only; rw [u5, x5, r5]
    have q6 : q.correctedTemperatureCelsius = p.correctedTemperatureCelsius := by
      rw [← hq]; dsimp only; rw [u6, x6, r6]
    have q7 : q.correctedRelativeHumidityPercentage = p.correctedRelativeHumidityPercentage := by
      rw [← hq]; dsimp only; rw [u7, x7, r7]
    have qtx : q.SENS_SERIAL.tx
        = p.SENS_SERIAL.tx ++ (command p.ADDR 0x16 ++ command p.ADDR 0x14) := by
      rw [← hq]; dsimp only; rw [updateSensorState_tx, etx]
    have qcode : q.stateCode = 0x16 := by
      rw [← hq]; dsimp only; rw [vcode, hb]
    have qflags : (allStates q).map NextPMState.isTrue
        = [false, true, true, false, true, false, false, false] := by
      rw [← hq]; dsimp only [allStates]; rw [vflags, hb]; rfl
    rw [updateTemperatureHumidityData_busy p hg hc hb, hq]
    exact ⟨q0, q4, q5, q6, q7, sentSince_append _ _ _ qtx, qcode, qflags⟩
  · intro hg hsum hb
    have hc : (exchange (refreshState p) mode.modeCode).checksumError = false := by
      rw [exchange_checksumError, hsum]; rfl
    have etx := exchange_tx (refreshState p) mode.modeCode
    rw [rtx, raddr, List.append_assoc] at etx
    generalize hq : ({ updateSensorState (exchange (refreshState p) mode.modeCode)
      ((exchange (refreshState p) mode.modeCode).sensorResponse 2) with
      noMeasurementAvailable := true } : NextPM) = q
    have qtx : q.SENS_SERIAL = (exchange (refreshState p) mode.modeCode).SENS_SERIAL := by
      rw [← hq]; dsimp only
      exact (updateSensorState_frame _ _).2.2.2.2.2.2.2.2.2.2.2
    have qaddr : q.ADDR = p.ADDR := by
      rw [← hq]; dsimp only
      rw [(updateSensorState_ADDR _ _).1, (exchange_ADDR _ _).1, raddr]
    have qbuf : q.sensorResponse = (exchange (refreshState p) mode.modeCode).sensorResponse := by
      rw [← hq]; dsimp only
      exact (updateSensorState_frame _ _).1
    obtain ⟨ftx, -, -⟩ := refreshState_tx q
    obtain ⟨ebuf, elen⟩ := exchange_read q 0x16
    obtain ⟨ubuf, ulen, uchk, -⟩ :=
      updateSensorState_frame (exchange q 0x16) ((exchange q 0x16).sensorResponse 2)
    obtain ⟨ucons, ucode⟩ :=
      updateSensorState_consistent (exchange q 0x16) ((exchange q 0x16).sensorResponse 2)
    have e : refreshState q = updateSensorState (exchange q 0x16)
        ((exchange q 0x16).sensorResponse 2) := rfl
    rw [qtx, qbuf] at ebuf elen
    rw [updateParticulateData_busy p mode hg hc hb, hq]
    refine ⟨sentSince_append _ _ _ ?_, ?_, ?_, ?_, ?_, ?_⟩
    · rw [ftx, qtx, qaddr, etx]
      simp only [List.append_assoc]
    · rw [e, ubuf, ebuf]
    · rw [e, ulen, elen]
    · rw [e, ucode, uchk, ubuf]
    · rw [e]; exact ucons
    · intro hempty
      rw [afterCommand_rx, hempty, List.nil_append]

theorem updateTemperatureHumidityData_invalid (p : NextPM)
    (h : ((refreshState p).notReady.isTrue || (refreshState p).tempHumidityError.isTrue)
      = false)
    (hc : (exchange (refreshState p) 0x14).checksumError = true) :
    updateTemperatureHumidityData p = exchange (refreshState p) 0x14 := by
  have c : ¬ ((refreshState p).notReady.isTrue || (refreshState p).tempHumidityError.isTrue)
      = true := by rw [h]; decide
  unfold updateTemperatureHumidityData
  dsimp only
  rw [if_neg c, if_pos hc]

theorem updateTemperatureHumidityData_success (p : NextPM)
    (h : ((refreshState p).notReady.isTrue || (refreshState p).tempHumidityError.isTrue)
      = false)
    (hc : (exchange (refreshState p) 0x14).checksumError = false)
    (hb : (exchange (refreshState p) 0x14).sensorResponse 2 ≠ 0x16) :
    (updateTemperatureHumidityData p).stateCode
      = (updateSensorState (exchange (refreshState p) 0x14)
          ((exchange (refreshState p) 0x14).sensorResponse 2)).stateCode ∧
    allStates (updateTemperatureHumidityData p)
      = allStates (updateSensorState (exchange (refreshState p) 0x14)
          ((exchange (refreshState p) 0x14).sensorResponse 2)) := by
  have c : ¬ ((refreshState p).notReady.isTrue || (refreshState p).tempHumidityError.isTrue)
      = true := by rw [h]; decide
  have c2 : ¬ (exchange (refreshState p) 0x14).checksumError = true := by
    rw [hc]; decide
  have c3 : ¬ (updateSensorState (exchange (refreshState p) 0x14)
      ((exchange (refreshState p) 0x14).sensorResponse 2)).sensorResponse 2 = 0x16 := by
    rw [(updateSensorState_frame _ _).1]; exact hb
  unfold updateTemperatureHumidityData
  dsimp only
  rw [if_neg c, if_neg c2, if_neg c3]
  dsimp only [allStates]
  exact ⟨rfl, rfl⟩

theorem consistent_of_eq (p q : NextPM) (h1 : q.stateCode = p.stateCode)
    (h2 : allStates q = allStates p) (h : Consistent p) : Consistent q := by
  unfold Consistent at h ⊢
  rw [h2, h1]
  exact h

theorem consistent_refreshState (p : NextPM) : Consistent (refreshState p) :=
  (updateSensorState_consistent (getSensorState p).2 (getSensorState p).1).1

theorem exchange_stateCode (p : NextPM) (opcode : Nat) :
    (exchange p opcode).stateCode = p.stateCode := rfl

theorem exchange_flags_low (p : NextPM) (opcode : Nat) :
    (exchange p opcode).sleepEnabled = p.sleepEnabled ∧
    (exchange p opcode).degradedError = p.degradedError ∧
    (exchange p opcode).notReady = p.notReady ∧
    (exchange p opcode).highHumidityError = p.highHumidityError :=
  ⟨rfl, rfl, rfl, rfl⟩

theorem exchange_flags_high (p : NextPM) (opcode : Nat) :
    (exchange p opcode).tempHumidityError = p.tempHumidityError ∧
    (exchange p opcode).fanError = p.fanError ∧
    (exchange p opcode).memoryError = p.memoryError ∧
    (exchange p opcode).laserError = p.laserError :=
  ⟨rfl, rfl, rfl, rfl⟩

theorem exchange_flags (p : NextPM) (opcode : Nat) :
    (exchange p opcode).stateCode = p.stateCode ∧
    allStates (exchange p opcode) = allStates p := by
  obtain ⟨f0, f1, f2, f3⟩ := exchange_flags_low p opcode
  obtain ⟨f4, f5, f6, f7⟩ := exchange_flags_high p opcode
  unfold allStates
  rw [f0, f1, f2, f3, f4, f5, f6, f7]
  exact ⟨exchange_stateCode p opcode, rfl⟩

theorem consistent_exchange (p : NextPM) (opcode : Nat) (h : Consistent p) :
    Consistent (exchange p opcode) :=
  consistent_of_eq p (exchange p opcode) (exchange_flags p opcode).1
    (exchange_flags p opcode).2 h

theorem consistent_new (sensorAddress : Nat) (mem : Nat → Nat) :
    Consistent (NextPM.new sensorAddress mem) := by
  simp [Consistent, allStates, NextPM.new]

theorem consistent_doSleep (p : NextPM) : Consistent (doSleep p) := by
  cases h : (refreshState p).sleepEnabled.isTrue
  · cases hc : (exchange (refreshState p) 0x15).checksumError
    · rw [doSleep_awake_valid p h hc]
      exact (updateSensorState_consistent _ _).1
    · rw [doSleep_awake_invalid p h hc]
      exact consistent_refreshState _
  · rw [doSleep_asleep p h]
    exact consistent_refreshState p

theorem consistent_doWake (p : NextPM) : Consistent (doWake p) := by
  cases h : (refreshState p).sleepEnabled.isTrue
  · rw [doWake_awake p h]
    exact consistent_refreshState p
  · rw [doWake_asleep p h]
    exact consistent_refreshState _

theorem consistent_updateParticulateData (p : NextPM) (mode : MeasurementMode) :
    Consistent (updateParticulateData p mode) := by
  cases h : ((refreshState p).notReady.isTrue || (refreshState p).sleepEnabled.isTrue
      || (refreshState p).laserError.isTrue)
  · cases hc : (exchange (refreshState p) mode.modeCode).checksumError
    · by_cases hb : (exchange (refreshState p) mode.modeCode).sensorResponse 2 = 0x16
      · rw [updateParticulateData_busy p mode h hc hb]
        exact consistent_refreshState _
      · obtain ⟨-, a, b, -⟩ := updateParticulateData_success p mode h hc hb
        exact consistent_of_eq _ _ a b (updateSensorState_consistent _ _).1
    · rw [updateParticulateData_invalid p mode h hc]
      exact consistent_exchange _ _ (consistent_refreshState p)
  · rw [updateParticulateData_gated p mode h]
    exact consistent_refreshState p

theorem consistent_updateTemperatureHumidityData (p : NextPM) :
    Consistent (updateTemperatureHumidityData p) := by
  cases h : ((refreshState p).notReady.isTrue || (refreshState p).tempHumidityError.isTrue)
  · cases hc : (exchange (refreshState p) 0x14).checksumError
    · by_cases hb : (exchange (refreshState p) 0x14).sensorResponse 2 = 0x16
      · rw [updateTemperatureHumidityData_busy p h hc hb]
        generalize hu : updateSensorState (exchange (refreshState p) 0x14)
          ((exchange (refreshState p) 0x14).sensorResponse 2) = u
        have cu : Consistent u := by
          rw [← hu]; exact (updateSensorState_consistent _ _).1
        have a : ({ u with noMeasurementAvailable := true } : NextPM).stateCode
            = u.stateCode := rfl
        have b : allStates ({ u with noMeasurementAvailable := true } : NextPM)
            = allStates u := rfl
        exact consistent_of_eq _ _ a b cu
      · obtain ⟨a, b⟩ := updateTemperatureHumidityData_success p h hc hb
        exact consistent_of_eq _ _ a b (updateSensorState_consistent _ _).1
    · rw [updateTemperatureHumidityData_invalid p h hc]
      exact consistent_exchange _ _ (consistent_refreshState p)
  · rw [updateTemperatureHumidityData_gated p h]
    exact consistent_refreshState p

theorem consistent_init (p : NextPM) (serObj : HardwareSerial) :
    Consistent (init p serObj).2 := by
  have e : (init p serObj).2
      = refreshState (delay { p with currentMode := some OFF, SENS_SERIAL := serObj.begin }
          350) := rfl
  rw [e]
  exact consistent_refreshState _

theorem consistent_queries (p : NextPM) :
    Consistent (readyToMeasure p).2 ∧ Consistent (getStateCode p).2 ∧
    Consistent (getAllStateStrings p).2 ∧ Consistent (getActiveStateStrings p).2 := by
  have e1 : (readyToMeasure p).2 = refreshState p := rfl
  have e2 : (getStateCode p).2 = refreshState p := rfl
  have e3 : (getAllStateStrings p).2 = refreshState p := rfl
  have e4 : (getActiveStateStrings p).2 = refreshState p := rfl
  rw [e1, e2, e3, e4]
  exact ⟨consistent_refreshState p, consistent_refreshState p, consistent_refreshState p,
    consistent_refreshState p⟩

theorem readyToMeasure_iff (p : NextPM) (hm : MasksDeclared p) :
    (readyToMeasure p).1 = true ↔ (getStateCode p).1 &&& 0x04 = 0 := by
  have hc := consistent_refreshState p
  have m2 := (refreshState_masks p hm).2.2.1
  have e1 : (readyToMeasure p).1 = !(refreshState p).notReady.isTrue := by
    unfold readyToMeasure
    dsimp only
  have e2 : (getStateCode p).1 = (refreshState p).stateCode := by
    unfold getStateCode
    dsimp only
  have t : ∀ f : NextPMState, f.isTrue = f.stateEnabled := fun _ => rfl
  rw [e1, e2, t]
  generalize refreshState p = r at hc m2 ⊢
  unfold Consistent at hc
  simp only [allStates, List.map_cons, List.map_nil, List.cons.injEq, and_true] at hc
  obtain ⟨-, -, c2, -⟩ := hc
  rw [c2, m2, Nat.land_comm]
  simp

/-- C20: in the initial session and after each public operation (`init`,
`doSleep`, `doWake`, `updateParticulateData`, `updateTemperatureHumidityData`,
`readyToMeasure`, `getStateCode`, `getAllStateStrings`,
`getActiveStateStrings`), whatever the port delivers, each of the eight flags
is enabled exactly when its bitmask ANDed with `stateCode` is not zero; and
`readyToMeasure` returns true exactly when bit 0x04 of the value `getStateCode`
returns from the same session is clear. -/
theorem flag_code_invariant (sensorAddress : Nat) (mem : Nat → Nat) (p : NextPM)
    (serObj : HardwareSerial) (mode : MeasurementMode) :
    Consistent (NextPM.new sensorAddress mem) ∧
    Consistent (init p serObj).2 ∧
    Consistent (doSleep p) ∧
    Consistent (doWake p) ∧
    Consistent (updateParticulateData p mode) ∧
    Consistent (updateTemperatureHumidityData p) ∧
    Consistent (readyToMeasure p).2 ∧
    Consistent (getStateCode p).2 ∧
    Consistent (getAllStateStrings p).2 ∧
    Consistent (getActiveStateStrings p).2 ∧
    (MasksDeclared p → ((readyToMeasure p).1 = true ↔ (getStateCode p).1 &&& 0x04 = 0)) := by
  obtain ⟨q1, q2, q3, q4⟩ := consistent_queries p
  exact ⟨consistent_new _ _, consistent_init p serObj, consistent_doSleep p,
    consistent_doWake p, consistent_updateParticulateData p mode,
    consistent_updateTemperatureHumidityData p, q1, q2, q3, q4, readyToMeasure_iff p⟩

theorem reportFlag_eq (f : NextPMState) (code : Nat) (all active : String) :
    reportFlag f code all active =
      ({ f with stateEnabled := decide ((f.stateBitmask &&& (code % 256)) ≠ 0) },
       all ++ ((if (f.stateBitmask &&& (code % 256)) ≠ 0 then f.stateDescriptorEnabled
                else f.stateDescriptorDisabled) ++ "\n"),
       active ++ (if (f.stateBitmask &&& (code % 256)) ≠ 0
                  then f.stateDescriptorEnabled ++ "\n" else "")) := by
  by_cases h : (f.stateBitmask &&& (code % 256)) ≠ 0
  · simp [reportFlag, NextPMState.checkIfPresent, NextPMState.getString, h,
      String.append_assoc]
  · simp [reportFlag, NextPMState.checkIfPresent, NextPMState.getString, h,
      String.append_assoc]

theorem concatLines_filter (P : Nat × String × String → Bool) (ts : List (Nat × String × String)) :
    concatLines ((ts.filter P).map (fun t => t.2.1))
      = ts.foldr (fun t acc => (if P t then t.2.1 ++ "\n" else "") ++ acc) "" := by
  induction ts with
  | nil => rfl
  | cons t ts ih =>
    by_cases h : P t = true
    · simp [List.filter, h, concatLines, ih]
    · simp [List.filter, h, concatLines, ih]

theorem updateSensorState_reports (p : NextPM) (s : Nat) (hc : p.checksumError = false) :
    (updateSensorState p s).allStateStrings
      = concatLines ((allStates p).map (fun f =>
          if (f.stateBitmask &&& (s % 256)) ≠ 0 then f.stateDescriptorEnabled
          else f.stateDescriptorDisabled)) ∧
    (updateSensorState p s).activeStateStrings
      = (allStates p).foldr (fun f acc =>
          (if (f.stateBitmask &&& (s % 256)) ≠ 0 then f.stateDescriptorEnabled ++ "\n"
           else "") ++ acc) "" := by
  simp only [updateSensorState, hc, Bool.false_eq_true, if_false, reportFlag_eq, allStates,
    List.map_cons, List.map_nil, concatLines, List.foldr_cons, List.foldr_nil, Nat.mod_mod,
    String.append_assoc, String.empty_append, String.append_empty]
  exact ⟨trivial, trivial⟩

/-- C16: for a state byte s decoded with `checksumError` false,
`allStateStrings` is the concatenation, in the order of the flag table, of the
current label of each flag (the enabled label if its bit is set in s, the
disabled label otherwise), each followed by a newline (eight lines), and
`activeStateStrings` is the concatenation, in the same order and form, of the
enabled labels of the flags whose bit is set; it is empty for the byte 0x00. -/
theorem status_reports (p : NextPM) (s : Nat) (hs : s < 256) (hf : FlagsDeclared p)
    (hc : p.checksumError = false) :
    (updateSensorState p s).allStateStrings
      = concatLines (flagTable.map (fun t => if t.1 &&& s ≠ 0 then t.2.1 else t.2.2)) ∧
    (flagTable.map (fun t => if t.1 &&& s ≠ 0 then t.2.1 else t.2.2)).length = 8 ∧
    (updateSensorState p s).activeStateStrings
      = concatLines ((flagTable.filter (fun t => decide (t.1 &&& s ≠ 0))).map
          (fun t => t.2.1)) ∧
    (updateSensorState p 0x00).activeStateStrings = "" := by
  obtain ⟨ha, hb⟩ := updateSensorState_reports p s hc
  obtain ⟨-, hz⟩ := updateSensorState_reports p 0x00 hc
  rw [Nat.mod_eq_of_lt hs] at ha hb
  unfold FlagsDeclared at hf
  refine ⟨?_, rfl, ?_, ?_⟩
  · rw [ha, ← hf, List.map_map]
    rfl
  · rw [hb, concatLines_filter, ← hf, List.foldr_map]
    simp only [decide_eq_true_eq]
  · rw [hz]
    simp [allStates]

/-- C12 on a device that answers the first state query as awake, the toggle
with `toggleReplyAsleep` and the next state query as asleep. -/
theorem sleep_idempotence_witness :
    (MasksDeclared (sessionScript stateReplyReady toggleReplyAsleep stateReplyAsleep) ∧
      (getSensorState (sessionScript stateReplyReady toggleReplyAsleep
        stateReplyAsleep)).2.checksumError = false ∧
      (getSensorState (sessionScript stateReplyReady toggleReplyAsleep
        stateReplyAsleep)).1 &&& 0x01 = 0 ∧
      (getSensorState (doSleep (sessionScript stateReplyReady toggleReplyAsleep
        stateReplyAsleep))).2.checksumError = false ∧
      (getSensorState (doSleep (sessionScript stateReplyReady toggleReplyAsleep
        stateReplyAsleep))).1 &&& 0x01 ≠ 0) ∧
    (opcodes (sentSince (sessionScript stateReplyReady toggleReplyAsleep stateReplyAsleep)
      (doSleep (doSleep (sessionScript stateReplyReady toggleReplyAsleep
        stateReplyAsleep))))).count 0x15 = 1 :=
  ⟨by decide,
   (sleep_idempotence (sessionScript stateReplyReady toggleReplyAsleep stateReplyAsleep)
      (by decide) (by decide) (by decide) (by decide) (by decide)).1⟩

/-- C13 on a device that reports not-ready, and on one that is ready. -/
theorem particulate_gating_witness :
    (((refreshState (sessionScript stateReplyNotReady [] [])).notReady.isTrue
        || (refreshState (sessionScript stateReplyNotReady [] [])).sleepEnabled.isTrue
        || (refreshState (sessionScript stateReplyNotReady [] [])).laserError.isTrue) = true ∧
      ((refreshState (sessionAnswering particulateReply)).notReady.isTrue
        || (refreshState (sessionAnswering particulateReply)).sleepEnabled.isTrue
        || (refreshState (sessionAnswering particulateReply)).laserError.isTrue) = false) ∧
    sentSince (sessionScript stateReplyNotReady [] [])
        (updateParticulateData (sessionScript stateReplyNotReady [] []) FAST)
      = command (sessionScript stateReplyNotReady [] []).ADDR 0x16 ∧
    (∃ more, sentSince (sessionAnswering particulateReply)
        (updateParticulateData (sessionAnswering particulateReply) FAST)
      = command (sessionAnswering particulateReply).ADDR 0x16
          ++ (command (sessionAnswering particulateReply).ADDR FAST.modeCode ++ more)) :=
  ⟨by decide,
   ((particulate_gating (sessionScript stateReplyNotReady [] []) FAST).1 (by decide)).1,
   (particulate_gating (sessionAnswering particulateReply) FAST).2 (by decide)⟩

/-- C17 on a device that answers both measurement commands with the busy
code. -/
theorem busy_asymmetry_witness :
    (MasksDeclared (sessionScript stateReplyReady climateReplyBusy []) ∧
      ((refreshState (sessionScript stateReplyReady climateReplyBusy [])).notReady.isTrue
        || (refreshState (sessionScript stateReplyReady climateReplyBusy
            [])).tempHumidityError.isTrue) = false ∧
      (received (exchange (refreshState (sessionScript stateReplyReady climateReplyBusy []))
        0x14)).sum % 256 = 0 ∧
      (exchange (refreshState (sessionScript stateReplyReady climateReplyBusy []))
        0x14).sensorResponse 2 = 0x16) ∧
    (MasksDeclared (sessionAnswering particulateReplyBusy) ∧
      ((refreshState (sessionAnswering particulateReplyBusy)).notReady.isTrue
        || (refreshState (sessionAnswering particulateReplyBusy)).sleepEnabled.isTrue
        || (refreshState (sessionAnswering particulateReplyBusy)).laserError.isTrue) = false ∧
      (received (exchange (refreshState (sessionAnswering particulateReplyBusy))
        FAST.modeCode)).sum % 256 = 0 ∧
      (exchange (refreshState (sessionAnswering particulateReplyBusy))
        FAST.modeCode).sensorResponse 2 = 0x16) ∧
    sentSince (sessionScript stateReplyReady climateReplyBusy [])
        (updateTemperatureHumidityData (sessionScript stateReplyReady climateReplyBusy []))
      = command (sessionScript stateReplyReady climateReplyBusy []).ADDR 0x16
          ++ command (sessionScript stateReplyReady climateReplyBusy []).ADDR 0x14 ∧
    sentSince (sessionAnswering particulateReplyBusy)
        (updateParticulateData (sessionAnswering particulateReplyBusy) FAST)
      = command (sessionAnswering particulateReplyBusy).ADDR 0x16
          ++ (command (sessionAnswering particulateReplyBusy).ADDR FAST.modeCode
            ++ command (sessionAnswering particulateReplyBusy).ADDR 0x16) :=
  ⟨by decide, by decide,
   ((busy_asymmetry (sessionScript stateReplyReady climateReplyBusy []) FAST (by decide)).1
      (by decide) (by decide) (by decide)).2.2.2.2.2.1,
   ((busy_asymmetry (sessionAnswering particulateReplyBusy) FAST (by decide)).2
      (by decide) (by decide) (by decide)).1⟩

/-- C18 on a port that delivers the damaged reply `stateReplyDamaged`, where
`init` returns false, and on a port on which nothing arrives. -/
theorem init_checksum_witness :
    (damagedPort.begin.elapse.afterCommand.rx.length ≤ 16 ∧
      silentPort.begin.elapse.afterCommand.rx = []) ∧
    (received (init fresh damagedPort).2 = stateReplyDamaged ∧
      (init fresh damagedPort).1 = false) ∧
    ((init fresh damagedPort).1 = true ↔
      damagedPort.begin.elapse.afterCommand.rx.sum % 256 = 0) ∧
    (init fresh damagedPort).2.SENS_SERIAL.tx = damagedPort.tx ++ command fresh.ADDR 0x16 ∧
    received (init fresh silentPort).2 = [] ∧
    (init fresh silentPort).2.checksumError = false ∧
    (init fresh silentPort).1 = true :=
  ⟨by decide, by decide,
   ((init_checksum fresh damagedPort).2.2.1 (by decide)).2.2,
   (init_checksum fresh damagedPort).2.1,
   (init_checksum fresh silentPort).2.2.2 (by decide)⟩

/-- C19 on a device whose first state reply is damaged. -/
theorem refresh_checksum_failure_witness :
    (MasksDeclared (sessionScript stateReplyDamaged toggleReplyAsleep stateReplyReady) ∧
      (received (getSensorState (sessionScript stateReplyDamaged toggleReplyAsleep
        stateReplyReady)).2).sum % 256 ≠ 0) ∧
    sentSince (sessionScript stateReplyDamaged toggleReplyAsleep stateReplyReady)
        (doWake (sessionScript stateReplyDamaged toggleReplyAsleep stateReplyReady))
      = command (sessionScript stateReplyDamaged toggleReplyAsleep stateReplyReady).ADDR 0x16
          ++ (command (sessionScript stateReplyDamaged toggleReplyAsleep
                stateReplyReady).ADDR 0x15
            ++ command (sessionScript stateReplyDamaged toggleReplyAsleep
                stateReplyReady).ADDR 0x16) ∧
    sentSince (sessionScript stateReplyDamaged toggleReplyAsleep stateReplyReady)
        (doSleep (sessionScript stateReplyDamaged toggleReplyAsleep stateReplyReady))
      = command (sessionScript stateReplyDamaged toggleReplyAsleep stateReplyReady).ADDR 0x16 :=
  ⟨by decide,
   (refresh_checksum_failure (sessionScript stateReplyDamaged toggleReplyAsleep
      stateReplyReady) FAST (by decide) (by decide)).1,
   (refresh_checksum_failure (sessionScript stateReplyDamaged toggleReplyAsleep
      stateReplyReady) FAST (by decide) (by decide)).2.1⟩

/-- C20 on a fresh driver answered by `stateReplyNotReady`. -/
theorem flag_code_invariant_witness :
    MasksDeclared (sessionScript stateReplyNotReady [] []) ∧
    ((readyToMeasure (sessionScript stateReplyNotReady [] [])).1 = true ↔
      (getStateCode (sessionScript stateReplyNotReady [] [])).1 &&& 0x04 = 0) :=
  ⟨by decide,
   (flag_code_invariant 0x81 (fun _ => 0) (sessionScript stateReplyNotReady [] [])
      silentPort FAST).2.2.2.2.2.2.2.2.2.2 (by decide)⟩

/-- C16 on a fresh driver, decoding the byte 0x12. -/
theorem status_reports_witness :
    (0x12 < 256 ∧ FlagsDeclared fresh ∧ fresh.checksumError = false) ∧
    (updateSensorState fresh 0x12).allStateStrings
      = concatLines (flagTable.map (fun t => if t.1 &&& 0x12 ≠ 0 then t.2.1 else t.2.2)) ∧
    (updateSensorState fresh 0x12).activeStateStrings
      = concatLines ((flagTable.filter (fun t => decide (t.1 &&& 0x12 ≠ 0))).map
          (fun t => t.2.1)) :=
  ⟨⟨by decide, by decide, rfl⟩,
   (status_reports fresh 0x12 (by decide) (by decide) rfl).1,
   (status_reports fresh 0x12 (by decide) (by decide) rfl).2.2.1⟩

end NextPM

end NextPMDriver
